import Mathlib

/-! Face Morph Pro: the frame pipeline of `src/app.js`.

A shallow embedding of `FaceMorphApp` (class of `src/app.js`): the per-frame
handler `onFaceMeshResults`, the two stages `applyMorph` and `applyAddon`, the
addon placement arithmetic, the asset selection `selectAsset` and the listener
of the morph slider.

Conventions of the embedding.

* JavaScript numbers are elements of an arbitrary linearly ordered field `K`
  (exact arithmetic; IEEE rounding is not modelled).  Every definition is
  computable and can be run at `K := ℚ`.
* `null` / `undefined` are `none`; a JS truthiness test on an object reference
  is `Option.isSome`.
* Collaborators that are not part of `src/app.js` (`Math.sqrt`, the canvas 2D
  context, `MorphEngine.morphFace`) are the fields of `Env`.  A collaborator
  that throws returns `none`; the `try`/`catch` of the caller then leaves the
  state as it was.
* The calls a handler makes are returned as a trace (`List Call`) next to the
  new application state.
-/

namespace FaceMorph

/-! ## Data model -/

/-- A landmark in pixel space: the JS array `[x, y]`. -/
abbrev Point (K : Type) := K × K

/-- An ordered landmark set (a JS array of `[x, y]` arrays). -/
abbrev Landmarks (K : Type) := List (Point K)

/-- A detector landmark, normalised per axis (`pt.x`, `pt.y`; the depth is never read). -/
structure NormPoint (K : Type) where
  x : K
  y : K

/-- The detector result: `results.multiFaceLandmarks` may be absent. -/
structure Results (K : Type) where
  multiFaceLandmarks : Option (List (List (NormPoint K)))

/-- One RGBA sample. -/
structure Pixel (K : Type) where
  r : K
  g : K
  b : K
  a : K

/-- Pixel content of a canvas or of an `ImageData`: rows of samples, top to bottom. -/
structure Bitmap (K : Type) where
  width : ℕ
  height : ℕ
  rows : List (List (Pixel K))

/-- An `HTMLImageElement` that finished loading. -/
structure Image (K : Type) where
  src : String
  width : ℕ
  height : ℕ
  bitmap : Bitmap K

/-- The `<video>` element at the time a frame is handled. -/
structure Video (K : Type) where
  videoWidth : ℕ
  videoHeight : ℕ
  frame : Bitmap K

/-- An entry of `this.assets[category]` (`loadAssets`, lines 96-139). -/
structure Asset (K : Type) where
  name : String
  image : String
  landmarks : Option String
  isAddon : Bool
  type : Option String
  imageElement : Option (Image K)

/-- The rectangle handed to `drawImage`: `position.x`, `position.y`, `size.width`, `size.height`. -/
structure Rect (K : Type) where
  x : K
  y : K
  width : K
  height : K

/-- The mutable fields of `FaceMorphApp` the frame pipeline reads or writes
(`this.state.*`, `this.targetImage`, `this.targetLandmarks`, `this.cameraLandmarks`,
the two canvases, the no-face warning, the status line and the slider label). -/
structure App (K : Type) where
  selectedImageIndex : ℕ
  morphAmount : K
  faceDetected : Bool
  selectedAddon : Option (Asset K)
  currentAssets : List (Asset K)
  targetImage : Option (Image K)
  targetLandmarks : Option (Landmarks K)
  cameraLandmarks : Option (Landmarks K)
  targetCanvas : Bitmap K
  output : Bitmap K
  noFaceWarning : Bool
  status : Option (String × Bool)
  morphValueText : String := ""

/-- Collaborators outside `src/app.js`. -/
structure Env (K : Type) where
  /-- The library function `Math.sqrt`. -/
  sqrt : K → K
  /-- Result of `ctx.getImageData(0, 0, w, h)` on a canvas with the given content. -/
  getImageData : Bitmap K → ℕ → ℕ → Option (Bitmap K)
  /-- Result of `MorphEngine.morphFace(src, target, live, targetLm, alpha, out)`: the filled
  `out`. -/
  morphFace : Bitmap K → Bitmap K → Option (Landmarks K) → Option (Landmarks K) → K →
    Option (Bitmap K)
  /-- Result of `ctx.drawImage(img, x, y, w, h)` on a canvas with the given content. -/
  drawImage : Bitmap K → Image K → Rect K → Option (Bitmap K)

/-- The calls recorded in a trace. -/
inductive Call (K : Type) where
  | applyAddon : Call K
  | applyMorph : Call K
  | morphFace (srcData targetData : Bitmap K) (live target : Option (Landmarks K))
      (alpha : K) : Call K
  | putImageData (data : Bitmap K) : Call K
  | drawImage (img : Image K) (rect : Rect K) : Call K

/-! ## Addon placement (`applyAddon`, lines 317-414) -/

/-- Placement for `case 'glasses': case 'sunglasses':` (lines 321-339). -/
def placeEyewear {K : Type} [LinearOrderedField K] (sqrt : K → K) (img : Image K)
    (landmarks : Landmarks K) : Option (Rect K) :=
  match landmarks[33]?, landmarks[263]? with
  | some leftEye, some rightEye =>
    let eyeDistance := sqrt ((rightEye.1 - leftEye.1) ^ 2 + (rightEye.2 - leftEye.2) ^ 2)
    let width := eyeDistance * 2.2
    let height := (eyeDistance * 2.2) * ((img.height : K) / (img.width : K))
    some { x := (leftEye.1 + rightEye.1) / 2 - width / 2
           y := (leftEye.2 + rightEye.2) / 2 - height / 2
           width := width
           height := height }
  | _, _ => none

/-- Placement for `case 'moustache': case 'beard':` (lines 344-371). -/
def placeMouth {K : Type} [LinearOrderedField K] (sqrt : K → K) (isBeard : Bool)
    (img : Image K) (landmarks : Landmarks K) : Option (Rect K) :=
  match landmarks[61]?, landmarks[291]? with
  | some mouthLeft, some mouthRight =>
    let mouthWidth := sqrt ((mouthRight.1 - mouthLeft.1) ^ 2 + (mouthRight.2 - mouthLeft.2) ^ 2)
    let width := mouthWidth * 1.8
    let height := (mouthWidth * 1.8) * ((img.height : K) / (img.width : K))
    let mouthCenterX := (mouthLeft.1 + mouthRight.1) / 2
    let mouthCenterY := (mouthLeft.2 + mouthRight.2) / 2
    let yOffset := if isBeard then height * 0.2 else -height * 0.1
    some { x := mouthCenterX - width / 2
           y := mouthCenterY - height / 2 + yOffset
           width := width
           height := height }
  | _, _ => none

/-- Placement for `case 'wig': case 'hair':` (lines 376-395). -/
def placeCrown {K : Type} [LinearOrderedField K] (sqrt : K → K) (img : Image K)
    (landmarks : Landmarks K) : Option (Rect K) :=
  match landmarks[10]?, landmarks[234]?, landmarks[454]? with
  | some top, some left, some right =>
    let faceWidth := sqrt ((right.1 - left.1) ^ 2 + (right.2 - left.2) ^ 2)
    let width := faceWidth * 1.6
    let height := (faceWidth * 1.6) * ((img.height : K) / (img.width : K))
    some { x := (left.1 + right.1) / 2 - width / 2
           y := top.2 - height * 0.7
           width := width
           height := height }
  | _, _, _ => none

/-- Placement for `default:` (lines 399-413). -/
def placeDefault {K : Type} [LinearOrderedField K] (img : Image K)
    (landmarks : Landmarks K) : Option (Rect K) :=
  match landmarks[1]?, landmarks[234]?, landmarks[454]? with
  | some nosePoint, some faceLeft, some faceRight =>
    let width := |faceRight.1 - faceLeft.1| * 0.9
    let height := width * ((img.height : K) / (img.width : K))
    some { x := nosePoint.1 - width / 2
           y := nosePoint.2 - height / 2
           width := width
           height := height }
  | _, _, _ => none

/-- The `switch (addon.type)` of `applyAddon` (lines 317-414): the rectangle to draw, or
`none` when the branch returns because an anchor landmark is missing. -/
def addonPlacement {K : Type} [LinearOrderedField K] (sqrt : K → K) (type : Option String)
    (img : Image K) (landmarks : Landmarks K) : Option (Rect K) :=
  if type = some "glasses" ∨ type = some "sunglasses" then placeEyewear sqrt img landmarks
  else if type = some "moustache" ∨ type = some "beard" then
    placeMouth sqrt (type == some "beard") img landmarks
  else if type = some "wig" ∨ type = some "hair" then placeCrown sqrt img landmarks
  else placeDefault img landmarks

/-! ## The two stages -/

/-- Embeds `applyAddon()` (lines 305-427). -/
def applyAddon {K : Type} [LinearOrderedField K] (env : Env K) (app : App K) :
    App K × List (Call K) :=
  match app.cameraLandmarks, app.selectedAddon with
  | some landmarks, some addon =>
    match addon.imageElement with
    | none => (app, [])
    | some img =>
      match addonPlacement env.sqrt addon.type img landmarks with
      | none => (app, [])
      | some rect =>
        match env.drawImage app.output img rect with
        | some out => ({ app with output := out }, [Call.drawImage img rect])
        | none => (app, [Call.drawImage img rect])
  | _, _ => (app, [])

/-- Embeds `applyMorph()` (lines 272-303). -/
def applyMorph {K : Type} (env : Env K) (video : Video K) (app : App K) : App K × List (Call K) :=
  if app.cameraLandmarks.isNone ∨ app.targetLandmarks.isNone then (app, [])
  else
    let alpha := app.morphAmount
    match env.getImageData app.output video.videoWidth video.videoHeight with
    | none => (app, [])
    | some srcData =>
      match env.getImageData app.targetCanvas app.targetCanvas.width app.targetCanvas.height with
      | none => (app, [])
      | some targetData =>
        let call := Call.morphFace srcData targetData app.cameraLandmarks app.targetLandmarks alpha
        match env.morphFace srcData targetData app.cameraLandmarks app.targetLandmarks alpha with
        | none => (app, [call])
        | some outputData =>
          ({ app with output := outputData }, [call, Call.putImageData outputData])

/-! ## The frame handler -/

/-- The content of the output canvas after lines 233-236: the video frame drawn over the
whole canvas under `scale(-1, 1)`, i.e. mirrored horizontally.  The output canvas has the
size of the video (`initCamera`, lines 199-203). -/
def drawVideoFrame {K : Type} (video : Video K) : Bitmap K :=
  { width := video.videoWidth
    height := video.videoHeight
    rows := video.frame.rows.map List.reverse }

/-- Lines 242-245: `landmarks.map(pt => [(1 - pt.x) * videoWidth, pt.y * videoHeight])`. -/
def toPixelLandmarks {K : Type} [LinearOrderedField K] (video : Video K)
    (landmarks : List (NormPoint K)) : Landmarks K :=
  landmarks.map fun pt => ((1 - pt.x) * (video.videoWidth : K), pt.y * (video.videoHeight : K))

/-- Embeds `onFaceMeshResults(results)` (lines 229-270). -/
def onFaceMeshResults {K : Type} [LinearOrderedField K] (env : Env K) (video : Video K)
    (results : Results K) (app : App K) : App K × List (Call K) :=
  let app1 := { app with output := drawVideoFrame video }
  match results.multiFaceLandmarks with
  | some (landmarks :: _) =>
    let app2 := { app1 with
      cameraLandmarks := some (toPixelLandmarks video landmarks)
      faceDetected := true
      noFaceWarning := false }
    if app2.selectedAddon.isSome then
      let r := applyAddon env app2
      (r.1, Call.applyAddon :: r.2)
    else if app2.morphAmount > 0.01 ∧ app2.targetImage.isSome ∧ app2.targetLandmarks.isSome then
      let r := applyMorph env video app2
      (r.1, Call.applyMorph :: r.2)
    else (app2, [])
  | _ =>
    ({ app1 with faceDetected := false, cameraLandmarks := none, noFaceWarning := true }, [])

/-! ## Selecting an asset (`selectAsset`, lines 483-533)

`selectAsset` is an `async` function with three `await`s.  Each piece of code between two
suspension points is one definition; `selectAsset` chains them for a call that runs to its end
with nothing else scheduled in between, and the pieces can be interleaved with frames by hand.
Every statement that can raise is inside a `try`, so no piece has an exceptional result: a
rejected promise is an argument, and the `catch` block it reaches is part of the piece.  The
thumbnail highlighting (lines 490-492), the console output and `this.triangles`, which nothing
reads, are not part of the state. -/

/-- The settled value of an awaited promise: the value it resolved with, or the reason it
rejected with. -/
abbrev Settled (α : Type) := Except String α

/-- The `Response` a `fetch` resolves with: its `ok` flag and what `response.json()` settles
with, JSON `null` being `none`. -/
structure Response (K : Type) where
  ok : Bool
  json : Settled (Option (Landmarks K))

/-- The network as `selectAsset` sees it: `loadImage(src)` (lines 142-150) and
`fetch(asset.landmarks)`. -/
structure Network (K : Type) where
  loadImage : String → Settled (Image K)
  fetch : Option String → Settled (Response K)

/-- Embeds `showStatus(message, isError)` (lines 746-754); the timer that hides the overlay
after three seconds is not modelled. -/
def showStatus {K : Type} (message : String) (isError : Bool) (app : App K) : App K :=
  { app with status := some (message, isError) }

/-- Lines 484-507 of `selectAsset(index)`: the synchronous part up to the first `await`.  The
second component is the face target whose image is being loaded when the call is suspended at
line 507, and `none` when the call has returned. -/
def selectAssetStart {K : Type} (index : ℕ) (app : App K) : App K × Option (Asset K) :=
  let app1 := { app with selectedImageIndex := index }
  match app1.currentAssets[index]? with
  | none => (app1, none)
  | some asset =>
    if asset.isAddon then
      ({ app1 with selectedAddon := some asset, targetImage := none, targetLandmarks := none },
        none)
    else
      ({ app1 with selectedAddon := none }, some asset)

/-- The inner `catch` block of `selectAsset` (lines 523-527). -/
def noLandmarks {K : Type} (asset : Asset K) (app : App K) : App K :=
  showStatus ("No landmarks for " ++ asset.name) true { app with targetLandmarks := none }

/-- Lines 507-516, entered when `loadImage(asset.image)` settles: the target image and its
canvas are replaced and the landmark file is requested, or the outer `catch` (lines 528-531)
reports the failure.  The flag tells whether the call is suspended again, at line 516. -/
def afterLoadImage {K : Type} (asset : Asset K) (settled : Settled (Image K)) (app : App K) :
    App K × Bool :=
  match settled with
  | .ok img =>
    ({ app with
        targetImage := some img
        targetCanvas := { width := img.width, height := img.height, rows := img.bitmap.rows } },
      true)
  | .error _ => (showStatus ("Failed to load " ++ asset.name) true app, false)

/-- Lines 516-522, entered when `fetch(asset.landmarks)` settles: an `ok` response is read as
JSON (the call is suspended at line 518 on that response), anything else reaches the inner
`catch`. -/
def afterFetch {K : Type} (asset : Asset K) (settled : Settled (Response K)) (app : App K) :
    App K × Option (Response K) :=
  match settled with
  | .ok response =>
    if response.ok then (app, some response) else (noLandmarks asset app, none)
  | .error _ => (noLandmarks asset app, none)

/-- Lines 518-519, entered when `response.json()` settles: the parsed landmarks are stored; a
rejection, or the `TypeError` of reading `.length` of `null`, reaches the inner `catch`. -/
def afterJson {K : Type} (asset : Asset K) (settled : Settled (Option (Landmarks K)))
    (app : App K) : App K :=
  match settled with
  | .ok (some landmarks) => { app with targetLandmarks := some landmarks }
  | .ok none => noLandmarks asset { app with targetLandmarks := none }
  | .error _ => noLandmarks asset app

/-- Embeds `selectAsset(index)` (lines 483-533) for a call that runs from its first line to its
last with the promises settled by `net`. -/
def selectAsset {K : Type} (net : Network K) (index : ℕ) (app : App K) : App K :=
  match selectAssetStart index app with
  | (app1, none) => app1
  | (app1, some asset) =>
    match afterLoadImage asset (net.loadImage asset.image) app1 with
    | (app2, false) => app2
    | (app2, true) =>
      match afterFetch asset (net.fetch asset.landmarks) app2 with
      | (app3, none) => app3
      | (app3, some response) => afterJson asset response.json app3

/-! ## The morph slider (`setupEventListeners`, lines 555-558) -/

/-- The code points `parseInt` skips at the start of its argument (ECMAScript `WhiteSpace` and
`LineTerminator`). -/
def isJsWhitespace (c : Char) : Bool :=
  c.toNat ∈ [9, 10, 11, 12, 13, 32, 160, 5760, 8232, 8233, 8239, 8287, 12288, 65279] ||
    (8192 ≤ c.toNat && c.toNat ≤ 8202)

/-- The value of `c` as a digit in the given radix, if it is one. -/
def digitValue (radix : ℕ) (c : Char) : Option ℕ :=
  let v :=
    if 48 ≤ c.toNat ∧ c.toNat ≤ 57 then some (c.toNat - 48)
    else if 97 ≤ c.toNat ∧ c.toNat ≤ 122 then some (c.toNat - 87)
    else if 65 ≤ c.toNat ∧ c.toNat ≤ 90 then some (c.toNat - 55)
    else none
  v.bind fun d => if d < radix then some d else none

/-- The number written by the longest run of digits at the start of `cs`, continuing from
`acc`; `none` when no digit has been read. -/
def parseDigits (radix : ℕ) : Option ℕ → List Char → Option ℕ
  | acc, [] => acc
  | acc, c :: cs =>
    match digitValue radix c with
    | some d => parseDigits radix (some (acc.getD 0 * radix + d)) cs
    | none => acc

/-- The digits of `parseInt` after the sign: radix 16 after a `0x` / `0X`, else radix 10. -/
def parseUnsigned : List Char → Option ℕ
  | '0' :: 'x' :: cs => parseDigits 16 none cs
  | '0' :: 'X' :: cs => parseDigits 16 none cs
  | cs => parseDigits 10 none cs

/-- The built-in `parseInt(string)` with no radix argument; `none` is `NaN`. -/
def parseInt (string : String) : Option ℤ :=
  match string.toList.dropWhile isJsWhitespace with
  | '-' :: cs => (parseUnsigned cs).map fun n => -(n : ℤ)
  | '+' :: cs => (parseUnsigned cs).map fun n => (n : ℤ)
  | cs => (parseUnsigned cs).map fun n => (n : ℤ)

/-- The `input` listener of the morph slider (lines 555-558), `value` being `e.target.value`.
The result is `none` when `parseInt` yields `NaN`, which `K` has no element for. -/
def onMorphSliderInput {K : Type} [LinearOrderedField K] (value : String) (app : App K) :
    Option (App K) :=
  (parseInt value).map fun n =>
    { app with morphAmount := (n : K) / 100, morphValueText := value ++ "%" }

/-! ## The morph engine (spec sections 4.3 and 4.4)

`MorphEngine` is instantiated at line 52 and called at lines 289-296, but its class is not
part of `src/app.js`.  The definitions of this section follow the specification. -/

/-- Modelled from the spec: `MorphEngine` is missing from the sources.  This is the per-pixel
output of the Piecewise-Affine Warper (section 4.3): the colour resampled from the target and
the coverage, which is 0 for a pixel outside every triangle of the mesh. -/
structure WarpSample (K : Type) where
  color : Pixel K
  coverage : K

/-- Modelled from the spec: `MorphEngine` is missing from the sources.  This is the
`MorphRequest` of section 3: live and target landmark sets, source and target pixel buffers
and the blend factor. -/
structure MorphRequest (K : Type) where
  live : Landmarks K
  target : Landmarks K
  source : Bitmap K
  targetBuffer : Bitmap K
  alpha : K

/-- The sample at column `x` of row `y`, if the buffer has one. -/
def Bitmap.pixelAt {K : Type} (b : Bitmap K) (x y : ℕ) : Option (Pixel K) :=
  (b.rows[y]?).bind fun row => row[x]?

/-- The warper's sample at column `x` of row `y`, if there is one. -/
def sampleAt {K : Type} (samples : List (List (WarpSample K))) (x y : ℕ) :
    Option (WarpSample K) :=
  (samples[y]?).bind fun row => row[x]?

/-- Modelled from the spec: `MorphEngine` is missing from the sources.  This is the per-pixel
rule of the Alpha Blending Compositor (section 4.4),
`output = (1 − α) * source + α * warped_target`, where a pixel of coverage 0 passes the source
colour through whatever `α` is. -/
def MorphEngine.blendPixel {K : Type} [LinearOrderedField K] (alpha : K) (source : Pixel K)
    (w : WarpSample K) : Pixel K :=
  if w.coverage = 0 then source
  else
    { r := (1 - alpha) * source.r + alpha * w.color.r
      g := (1 - alpha) * source.g + alpha * w.color.g
      b := (1 - alpha) * source.b + alpha * w.color.b
      a := (1 - alpha) * source.a + alpha * w.color.a }

/-- Modelled from the spec: `MorphEngine` is missing from the sources.  This is the buffer
`morphFace` produces for a request: the compositor applied to every pixel of the source and
the warper's sample for it.  The warper of sections 4.2-4.3 is the parameter `warp`. -/
def MorphEngine.morphFace {K : Type} [LinearOrderedField K]
    (warp : MorphRequest K → List (List (WarpSample K))) (req : MorphRequest K) : Bitmap K :=
  { req.source with
    rows := List.zipWith (List.zipWith (MorphEngine.blendPixel req.alpha)) req.source.rows
      (warp req) }

/-- Modelled from the spec: `MorphEngine` is missing from the sources.  This is the target
warped fully into source geometry (section 4.3): the warper's colour on every covered pixel,
the pixels outside every triangle left untouched. -/
def MorphEngine.warpedBuffer {K : Type} [LinearOrderedField K]
    (warp : MorphRequest K → List (List (WarpSample K))) (req : MorphRequest K) : Bitmap K :=
  { req.source with
    rows := List.zipWith (List.zipWith fun s w => if w.coverage = 0 then s else w.color)
      req.source.rows (warp req) }

/-! ## Spec-side notions used to state the properties -/

/-- The Euclidean distance of two points, the square root being taken by `sqrt`. -/
def euclideanDistance {K : Type} [LinearOrderedField K] (sqrt : K → K) (p q : Point K) : K :=
  sqrt ((q.1 - p.1) ^ 2 + (q.2 - p.2) ^ 2)

/-- The midpoint of two points. -/
def midpointOf {K : Type} [LinearOrderedField K] (p q : Point K) : Point K :=
  ((p.1 + q.1) / 2, (p.2 + q.2) / 2)

/-- The centre of a rectangle: position plus half the size. -/
def Rect.centre {K : Type} [LinearOrderedField K] (r : Rect K) : Point K :=
  (r.x + r.width / 2, r.y + r.height / 2)

/-- The anchor landmarks the placement rule of an addon type requires: 33/263 for eyewear,
61/291 for the mouth region, 10/234/454 for the crown, 1/234/454 otherwise. -/
def requiredAnchors (type : Option String) : List ℕ :=
  if type = some "glasses" ∨ type = some "sunglasses" then [33, 263]
  else if type = some "moustache" ∨ type = some "beard" then [61, 291]
  else if type = some "wig" ∨ type = some "hair" then [10, 234, 454]
  else [1, 234, 454]

/-- The left and the right anchor landmark of the placement rule of an addon type. -/
def sideAnchors (type : Option String) : ℕ × ℕ :=
  if type = some "glasses" ∨ type = some "sunglasses" then (33, 263)
  else if type = some "moustache" ∨ type = some "beard" then (61, 291)
  else (234, 454)

/-- Every landmark moved by the vector `(dx, dy)`. -/
def translate {K : Type} [LinearOrderedField K] (dx dy : K) (landmarks : Landmarks K) :
    Landmarks K :=
  landmarks.map fun p => (p.1 + dx, p.2 + dy)

/-- The landmarks at indices `i` and `j` exchanged (nothing changes when one is absent). -/
def swapLandmarks {K : Type} (i j : ℕ) (landmarks : Landmarks K) : Landmarks K :=
  match landmarks[i]?, landmarks[j]? with
  | some a, some b => (landmarks.set i b).set j a
  | _, _ => landmarks

/-- A rectangle moved by the vector `(dx, dy)`, its size kept. -/
def Rect.moveBy {K : Type} [LinearOrderedField K] (dx dy : K) (r : Rect K) : Rect K :=
  { r with x := r.x + dx, y := r.y + dy }

/-- An event of a quiet period, in which no asset is selected and no `selectAsset` call is
suspended at one of its `await`s: the detector delivers a frame, or `state.morphAmount` is set
to a new value.  The settling of a promise that a suspended `selectAsset` call waits for is
not a quiet event; the pieces `afterLoadImage`, `afterFetch` and `afterJson` are applied
directly where such a call is resumed. -/
inductive QuietTick (K : Type) where
  | frame (video : Video K) (results : Results K) : QuietTick K
  | morphAmount (value : K) : QuietTick K

/-- The state after an event of a quiet period and the calls made in it. -/
def quietTick {K : Type} [LinearOrderedField K] (env : Env K) : QuietTick K → App K →
    App K × List (Call K)
  | .frame video results, app => onFaceMeshResults env video results app
  | .morphAmount value, app => ({ app with morphAmount := value }, [])

/-- The state after a quiet period and all the calls made in it, in order. -/
def runQuiet {K : Type} [LinearOrderedField K] (env : Env K) : List (QuietTick K) → App K →
    App K × List (Call K)
  | [], app => (app, [])
  | t :: ts, app =>
    ((runQuiet env ts (quietTick env t app).1).1,
      (quietTick env t app).2 ++ (runQuiet env ts (quietTick env t app).1).2)

/-! ## Concrete inputs over `ℚ` -/

namespace Example

/-- A rational square root: exact on squares of rationals, rounded down on the numerator
and denominator otherwise. -/
def sqrtQ (q : ℚ) : ℚ := (Nat.sqrt q.num.toNat : ℚ) / (Nat.sqrt q.den : ℚ)

/-- A grey sample with full alpha. -/
def grey (v : ℚ) : Pixel ℚ := { r := v, g := v, b := v, a := 255 }

/-- A 2×2 camera frame. -/
def video : Video ℚ :=
  { videoWidth := 2
    videoHeight := 2
    frame := { width := 2, height := 2, rows := [[grey 10, grey 20], [grey 30, grey 40]] } }

/-- Collaborators that never throw: the canvas read-back returns the content, the morph
engine returns the target data, and drawing a sprite leaves a marker sample. -/
def env : Env ℚ :=
  { sqrt := sqrtQ
    getImageData := fun b _ _ => some b
    morphFace := fun _ t _ _ _ => some t
    drawImage := fun b _ _ => some { b with rows := [grey 0] :: b.rows } }

/-- A sprite of 200×100 pixels. -/
def sprite : Image ℚ :=
  { src := "assets/addons/sprite.png", width := 200, height := 100
    bitmap := { width := 0, height := 0, rows := [] } }

/-- A loaded face target. -/
def targetImg : Image ℚ :=
  { src := "assets/celebs/tom_cruise.jpg", width := 1, height := 1
    bitmap := { width := 1, height := 1, rows := [[grey 99]] } }

/-- An addon entry of the manifest with the given `type`. -/
def addon (type : Option String) : Asset ℚ :=
  { name := "Addon", image := "assets/addons/sprite.png", landmarks := none
    isAddon := true, type := type, imageElement := some sprite }

/-- The state right after construction (lines 28-63): nothing selected, slider at 0. -/
def initial : App ℚ :=
  { selectedImageIndex := 0
    morphAmount := 0
    faceDetected := false
    selectedAddon := none
    currentAssets := []
    targetImage := none
    targetLandmarks := none
    cameraLandmarks := none
    targetCanvas := { width := 0, height := 0, rows := [] }
    output := { width := 2, height := 2, rows := [] }
    noFaceWarning := false
    status := none }

/-- A face target is loaded with its landmarks and the slider is at 50 %. -/
def morphing : App ℚ :=
  { initial with
    morphAmount := 1 / 2
    targetImage := some targetImg
    targetLandmarks := some [(0, 0), (1, 0), (0, 1)]
    targetCanvas := targetImg.bitmap }

/-- An addon is selected while target image, target landmarks and a slider value of 100 %
are all present (the state left when a face-target load completes after the addon click). -/
def addonOverTarget : App ℚ :=
  { morphing with morphAmount := 1, selectedAddon := some (addon (some "glasses")) }

/-- The target of `morphing` stays loaded and the slider is back at 0. -/
def sliderAtZero : App ℚ :=
  { morphing with morphAmount := 0 }

/-- The anchor landmarks of a tilted face on a 640×480 frame (every other index is a filler
point): nose 1, top of head 10, eye corners 33 and 263, mouth corners 61 and 291, face edges
234 and 454. -/
def landmarkAt (i : ℕ) : Point ℚ :=
  if i = 1 then (320, 350)
  else if i = 10 then (330, 150)
  else if i = 33 then (260, 280)
  else if i = 263 then (380, 330)
  else if i = 61 then (290, 410)
  else if i = 291 then (350, 435)
  else if i = 234 then (200, 300)
  else if i = 454 then (440, 400)
  else (320, 340)

/-- A live landmark set of 478 points. -/
def tiltedFace : Landmarks ℚ := (List.range 478).map landmarkAt

/-- A face is tracked and an addon of the given `type` is selected. -/
def wearing (type : Option String) : App ℚ :=
  { initial with
    faceDetected := true
    cameraLandmarks := some tiltedFace
    selectedAddon := some (addon type) }
/-- A red and a blue sample. -/
def red : Pixel ℚ := { r := 255, g := 0, b := 0, a := 255 }

/-- The blue sample of the target. -/
def blue : Pixel ℚ := { r := 0, g := 0, b := 255, a := 255 }

/-- A request on a 2×1 red source at `α = 1/2`. -/
def request : MorphRequest ℚ :=
  { live := [(0, 0), (1, 0), (0, 1)]
    target := [(10, 0), (11, 0), (10, 1)]
    source := { width := 2, height := 1, rows := [[red, red]] }
    targetBuffer := { width := 2, height := 1, rows := [[blue, blue]] }
    alpha := 1 / 2 }

/-- A warper that covers the left pixel with the target's blue and leaves the right pixel
outside the mesh. -/
def warp (_ : MorphRequest ℚ) : List (List (WarpSample ℚ)) :=
  [[{ color := blue, coverage := 1 }, { color := blue, coverage := 0 }]]

/-- The manifest entry of a face target (lines 105-112). -/
def face (name image landmarks : String) : Asset ℚ :=
  { name := name, image := image, landmarks := some landmarks
    isAddon := false, type := none, imageElement := none }

/-- The target whose image is `targetImg`. -/
def tom : Asset ℚ :=
  face "Tom Cruise" "assets/celebs/tom_cruise.jpg" "assets/landmarks/celebs/tom_cruise.json"

/-- A second target, with image and landmark file. -/
def salah : Asset ℚ :=
  face "Salah" "assets/celebs/Salah.jpeg" "assets/landmarks/celebs/Salah.json"

/-- A target whose image loads and whose landmark file is not on the server. -/
def steve : Asset ℚ :=
  face "Steve" "assets/celebs/Steve.jpeg" "assets/landmarks/celebs/Steve.json"

/-- A target whose image cannot be loaded. -/
def dustin : Asset ℚ :=
  face "Dustin" "assets/celebs/Dustin.jpg" "assets/landmarks/celebs/Dustin.json"

/-- The image of `salah`. -/
def salahImg : Image ℚ :=
  { src := "assets/celebs/Salah.jpeg", width := 1, height := 1
    bitmap := { width := 1, height := 1, rows := [[grey 77]] } }

/-- The image of `steve`. -/
def steveImg : Image ℚ :=
  { src := "assets/celebs/Steve.jpeg", width := 1, height := 1
    bitmap := { width := 1, height := 1, rows := [[grey 55]] } }

/-- The landmark file of `tom`. -/
def tomLandmarks : Landmarks ℚ := [(0, 0), (1, 0), (0, 1)]

/-- The landmark file of `salah`. -/
def salahLandmarks : Landmarks ℚ := [(5, 5), (6, 5), (5, 6)]

/-- A server that has the images of `tom`, `salah` and `steve` and the landmark files of
`tom` and `salah`; every other request fails. -/
def network : Network ℚ :=
  { loadImage := fun src =>
      if src = "assets/celebs/tom_cruise.jpg" then .ok targetImg
      else if src = "assets/celebs/Salah.jpeg" then .ok salahImg
      else if src = "assets/celebs/Steve.jpeg" then .ok steveImg
      else .error ("Failed to load image: " ++ src)
    fetch := fun url =>
      if url = some "assets/landmarks/celebs/tom_cruise.json" then
        .ok { ok := true, json := .ok (some tomLandmarks) }
      else if url = some "assets/landmarks/celebs/Salah.json" then
        .ok { ok := true, json := .ok (some salahLandmarks) }
      else .ok { ok := false, json := .error "Unexpected token" } }

/-- The `celebs` category is shown, nothing is loaded yet and the slider is at 50 %. -/
def gallery : App ℚ :=
  { initial with
    currentAssets := [tom, salah, steve, dustin]
    morphAmount := 1 / 2 }

/-- The call `selectAsset(0)` on `gallery` has run to its end: `tom` is the target. -/
def tomSelected : App ℚ := selectAsset network 0 gallery

/-- While `tom` is the target, `selectAsset(1)` has started and the image of `salah` has
arrived; the call is suspended at line 516, waiting for the landmark file of `salah`. -/
def salahImageArrived : App ℚ :=
  (afterLoadImage salah (.ok salahImg) (selectAssetStart 1 tomSelected).1).1

/-- The call `selectAsset(0)` for `tom` on `gallery` is suspended at line 516: the image of
`tom` has arrived and the landmark file of `tom` is still being fetched. -/
def tomFetchPending : App ℚ :=
  (afterLoadImage tom (network.loadImage tom.image) (selectAssetStart 0 gallery).1).1

/-- While the fetch for `tom` is pending, `selectAsset(2)` for `steve` has run from its first
line to its last. -/
def steveFailed : App ℚ := selectAsset network 2 tomFetchPending

/-- After `steveFailed`, the fetch of the suspended call for `tom` has settled and its JSON
has been read (lines 516-519). -/
def tomLandmarksArrived : App ℚ :=
  afterJson tom (.ok (some tomLandmarks))
    (afterFetch tom (network.fetch tom.landmarks) steveFailed).1

/-- A landmark set too short to hold any anchor. -/
def shortFace : App ℚ :=
  { initial with
    faceDetected := true
    cameraLandmarks := some [(320, 350), (321, 351)]
    selectedAddon := some (addon (some "glasses")) }

/-- A detector result with one face of three landmarks. -/
def faceResults : Results ℚ :=
  { multiFaceLandmarks := some [[⟨1 / 4, 1 / 2⟩, ⟨3 / 4, 1 / 2⟩, ⟨1 / 2, 1⟩]] }

/-- A detector result whose face list is empty. -/
def emptyResults : Results ℚ := { multiFaceLandmarks := some [] }

end Example

/-! ## Traces of the two stages -/

theorem applyAddon_trace {K : Type} [LinearOrderedField K] (env : Env K) (app : App K) :
    ∀ c ∈ (applyAddon env app).2, ∃ img rect, c = Call.drawImage img rect := by
  intro c hc
  unfold applyAddon at hc
  split at hc
  · split at hc
    · simp at hc
    · split at hc
      · simp at hc
      · split at hc <;> simp at hc <;> exact ⟨_, _, hc⟩
  · simp at hc

theorem applyAddon_cameraLandmarks {K : Type} [LinearOrderedField K] (env : Env K)
    (app : App K) : (applyAddon env app).1.cameraLandmarks = app.cameraLandmarks := by
  unfold applyAddon
  split
  · split
    · rfl
    · split
      · rfl
      · split <;> rfl
  · rfl

theorem applyMorph_trace {K : Type} (env : Env K) (video : Video K) (app : App K) :
    ∀ c ∈ (applyMorph env video app).2,
      (∃ s t, c = Call.morphFace s t app.cameraLandmarks app.targetLandmarks app.morphAmount ∧
        app.cameraLandmarks.isSome ∧ app.targetLandmarks.isSome) ∨
      ∃ d, c = Call.putImageData d := by
  intro c hc
  unfold applyMorph at hc
  split at hc
  · simp at hc
  · rename_i hg
    have hg' : app.cameraLandmarks.isSome ∧ app.targetLandmarks.isSome := by
      cases h1 : app.cameraLandmarks <;> cases h2 : app.targetLandmarks <;> simp_all
    simp only at hc
    split at hc
    · simp at hc
    · split at hc
      · simp at hc
      · split at hc
        · simp at hc
          exact Or.inl ⟨_, _, hc, hg'⟩
        · simp at hc
          rcases hc with hc | hc
          · exact Or.inl ⟨_, _, hc, hg'⟩
          · exact Or.inr ⟨_, hc⟩

theorem applyMorph_cameraLandmarks {K : Type} (env : Env K) (video : Video K) (app : App K) :
    (applyMorph env video app).1.cameraLandmarks = app.cameraLandmarks := by
  unfold applyMorph
  split
  · rfl
  · simp only
    split
    · rfl
    · split
      · rfl
      · split <;> rfl

theorem applyAddon_not_mem_applyMorph {K : Type} [LinearOrderedField K] (env : Env K)
    (app : App K) : Call.applyMorph ∉ (applyAddon env app).2 := by
  intro h
  obtain ⟨_, _, h'⟩ := applyAddon_trace env app _ h
  cases h'

theorem applyAddon_not_mem_applyAddon {K : Type} [LinearOrderedField K] (env : Env K)
    (app : App K) : Call.applyAddon ∉ (applyAddon env app).2 := by
  intro h
  obtain ⟨_, _, h'⟩ := applyAddon_trace env app _ h
  cases h'

theorem applyMorph_not_mem_applyAddon {K : Type} (env : Env K) (video : Video K)
    (app : App K) : Call.applyAddon ∉ (applyMorph env video app).2 := by
  intro h
  rcases applyMorph_trace env video app _ h with ⟨_, _, h', _⟩ | ⟨_, h'⟩ <;> cases h'

theorem applyMorph_not_mem_applyMorph {K : Type} (env : Env K) (video : Video K)
    (app : App K) : Call.applyMorph ∉ (applyMorph env video app).2 := by
  intro h
  rcases applyMorph_trace env video app _ h with ⟨_, _, h', _⟩ | ⟨_, h'⟩ <;> cases h'

/-- The handler's trace, by cases on the state, for a frame with a face. -/
theorem onFaceMeshResults_face {K : Type} [LinearOrderedField K] (env : Env K)
    (video : Video K) (results : Results K) (app : App K) (lm : List (NormPoint K))
    (rest : List (List (NormPoint K))) (hface : results.multiFaceLandmarks = some (lm :: rest)) :
    onFaceMeshResults env video results app =
      let app2 := { app with
        output := drawVideoFrame video
        cameraLandmarks := some (toPixelLandmarks video lm)
        faceDetected := true
        noFaceWarning := false }
      if app.selectedAddon.isSome then
        ((applyAddon env app2).1, Call.applyAddon :: (applyAddon env app2).2)
      else if app.morphAmount > 0.01 ∧ app.targetImage.isSome ∧ app.targetLandmarks.isSome then
        ((applyMorph env video app2).1, Call.applyMorph :: (applyMorph env video app2).2)
      else (app2, []) := by
  unfold onFaceMeshResults
  simp only [hface]

/-- C1. On every frame with a face the handler invokes at most one of `applyAddon` and
`applyMorph`; when an addon is selected it invokes `applyAddon` and not `applyMorph`, whatever
`morphAmount`, `targetImage` and `targetLandmarks` are. -/
theorem onFaceMeshResults_addon_excludes_morph {K : Type} [LinearOrderedField K] (env : Env K)
    (video : Video K) (results : Results K) (app : App K) (lm : List (NormPoint K))
    (rest : List (List (NormPoint K))) (hface : results.multiFaceLandmarks = some (lm :: rest)) :
    ¬ (Call.applyAddon ∈ (onFaceMeshResults env video results app).2 ∧
        Call.applyMorph ∈ (onFaceMeshResults env video results app).2) ∧
      (app.selectedAddon.isSome = true →
        Call.applyAddon ∈ (onFaceMeshResults env video results app).2 ∧
        Call.applyMorph ∉ (onFaceMeshResults env video results app).2) := by
  rw [onFaceMeshResults_face env video results app lm rest hface]
  simp only
  split_ifs with h1 h2
  · simp [applyAddon_not_mem_applyMorph]
  · simp [applyMorph_not_mem_applyAddon, h1]
  · simp [h1]

/-- Witness for C1: an addon selected over a loaded target with the slider at 100 %. -/
theorem onFaceMeshResults_addon_excludes_morph_witness :
    Example.faceResults.multiFaceLandmarks =
        some ([⟨1 / 4, 1 / 2⟩, ⟨3 / 4, 1 / 2⟩, ⟨1 / 2, 1⟩] :: []) ∧
      Example.addonOverTarget.selectedAddon.isSome = true ∧
      Example.addonOverTarget.targetImage.isSome = true ∧
      Example.addonOverTarget.targetLandmarks.isSome = true ∧
      Call.applyAddon ∈ (onFaceMeshResults Example.env Example.video Example.faceResults
        Example.addonOverTarget).2 ∧
      Call.applyMorph ∉ (onFaceMeshResults Example.env Example.video Example.faceResults
        Example.addonOverTarget).2 :=
  ⟨rfl, rfl, rfl, rfl,
    (onFaceMeshResults_addon_excludes_morph Example.env Example.video Example.faceResults
      Example.addonOverTarget _ _ rfl).2 rfl⟩

/-- C2. On a frame with a face and no addon selected, `applyMorph` is invoked exactly when
`morphAmount > 0.01` and `targetImage` and `targetLandmarks` are both non-null; and every call
of `morphFace` made by `applyMorph` (from the handler or from any state) has non-null live and
target landmark arguments and `alpha = state.morphAmount`. -/
theorem onFaceMeshResults_morph_iff {K : Type} [LinearOrderedField K] (env : Env K)
    (video : Video K) (results : Results K) (app : App K) (lm : List (NormPoint K))
    (rest : List (List (NormPoint K))) (hface : results.multiFaceLandmarks = some (lm :: rest))
    (hno : app.selectedAddon = none) :
    (Call.applyMorph ∈ (onFaceMeshResults env video results app).2 ↔
        app.morphAmount > 0.01 ∧ app.targetImage.isSome = true ∧
          app.targetLandmarks.isSome = true) ∧
      (∀ s t live tgt a,
        Call.morphFace s t live tgt a ∈ (onFaceMeshResults env video results app).2 →
          live = some (toPixelLandmarks video lm) ∧ tgt = app.targetLandmarks ∧
            tgt.isSome = true ∧ a = app.morphAmount) ∧
      (∀ (st : App K) s t live tgt a,
        Call.morphFace s t live tgt a ∈ (applyMorph env video st).2 →
          live.isSome = true ∧ tgt.isSome = true ∧ a = st.morphAmount) := by
  have key : ∀ (st : App K) s t live tgt a,
      Call.morphFace s t live tgt a ∈ (applyMorph env video st).2 →
        live = st.cameraLandmarks ∧ tgt = st.targetLandmarks ∧
          live.isSome = true ∧ tgt.isSome = true ∧ a = st.morphAmount := by
    intro st s t live tgt a h
    rcases applyMorph_trace env video st _ h with ⟨s', t', h', h1, h2⟩ | ⟨_, h'⟩
    · simp only [Call.morphFace.injEq] at h'
      obtain ⟨-, -, rfl, rfl, rfl⟩ := h'
      exact ⟨rfl, rfl, h1, h2, rfl⟩
    · cases h'
  refine ⟨?_, ?_, ?_⟩
  · rw [onFaceMeshResults_face env video results app lm rest hface]
    simp only [hno, Option.isSome_none, Bool.false_eq_true, if_false]
    split_ifs with h2
    · simp [h2]
    · simp only [List.not_mem_nil, false_iff]
      exact h2
  · intro s t live tgt a h
    rw [onFaceMeshResults_face env video results app lm rest hface] at h
    simp only [hno, Option.isSome_none, Bool.false_eq_true, if_false] at h
    split_ifs at h with h2
    · simp only [List.mem_cons] at h
      rcases h with h | h
      · cases h
      · obtain ⟨e1, e2, _, e4, e5⟩ := key _ s t live tgt a h
        exact ⟨e1, e2, e4, e5⟩
    · simp at h
  · intro st s t live tgt a h
    obtain ⟨_, _, e3, e4, e5⟩ := key st s t live tgt a h
    exact ⟨e3, e4, e5⟩

/-- Witness for C2: a loaded target with the slider at 50 % is morphed. -/
theorem onFaceMeshResults_morph_iff_witness :
    Example.faceResults.multiFaceLandmarks =
        some ([⟨1 / 4, 1 / 2⟩, ⟨3 / 4, 1 / 2⟩, ⟨1 / 2, 1⟩] :: []) ∧
      Example.morphing.selectedAddon = none ∧
      Call.applyMorph ∈ (onFaceMeshResults Example.env Example.video Example.faceResults
        Example.morphing).2 :=
  ⟨rfl, rfl,
    (onFaceMeshResults_morph_iff Example.env Example.video Example.faceResults
      Example.morphing _ _ rfl rfl).1.mpr
      ⟨by norm_num [Example.morphing], rfl, rfl⟩⟩

/-- The run behind the C2 witness: the engine is reached with the denormalised live landmarks,
the target landmarks and `alpha = 1/2`, and its result is put on the output canvas. -/
theorem onFaceMeshResults_morphing_run :
    (onFaceMeshResults Example.env Example.video Example.faceResults Example.morphing).2 =
      [Call.applyMorph,
        Call.morphFace (drawVideoFrame Example.video) Example.targetImg.bitmap
          (some [(3 / 2, 1), (1 / 2, 1), (1, 2)]) (some [(0, 0), (1, 0), (0, 1)]) (1 / 2),
        Call.putImageData Example.targetImg.bitmap] := by
  norm_num [onFaceMeshResults, applyMorph, Example.faceResults, Example.morphing,
    Example.initial, Example.env, toPixelLandmarks, Example.video, drawVideoFrame,
    Example.targetImg]

/-- C3. When the detector reports no face (`multiFaceLandmarks` absent or empty), in every
state the handler invokes neither `applyMorph` nor `applyAddon`, sets `faceDetected` to false
and `cameraLandmarks` to null, raises the no-face warning, and leaves on the output canvas
exactly the frame it drew first. -/
theorem onFaceMeshResults_no_face {K : Type} [LinearOrderedField K] (env : Env K)
    (video : Video K) (results : Results K) (app : App K)
    (hnone : results.multiFaceLandmarks = none ∨ results.multiFaceLandmarks = some []) :
    (onFaceMeshResults env video results app).2 = [] ∧
      Call.applyMorph ∉ (onFaceMeshResults env video results app).2 ∧
      Call.applyAddon ∉ (onFaceMeshResults env video results app).2 ∧
      (onFaceMeshResults env video results app).1.faceDetected = false ∧
      (onFaceMeshResults env video results app).1.cameraLandmarks = none ∧
      (onFaceMeshResults env video results app).1.noFaceWarning = true ∧
      (onFaceMeshResults env video results app).1.output = drawVideoFrame video := by
  have h : onFaceMeshResults env video results app =
      ({ app with
          output := drawVideoFrame video
          faceDetected := false
          cameraLandmarks := none
          noFaceWarning := true }, []) := by
    unfold onFaceMeshResults
    rcases hnone with h | h <;> simp only [h]
  rw [h]
  simp

/-- Witness for C3: an empty face list while an addon is selected over a loaded target. -/
theorem onFaceMeshResults_no_face_witness :
    (Example.emptyResults.multiFaceLandmarks = none ∨
        Example.emptyResults.multiFaceLandmarks = some []) ∧
      (onFaceMeshResults Example.env Example.video Example.emptyResults
        Example.addonOverTarget).2 = [] ∧
      (onFaceMeshResults Example.env Example.video Example.emptyResults
        Example.addonOverTarget).1.output = drawVideoFrame Example.video :=
  ⟨Or.inr rfl,
    (onFaceMeshResults_no_face Example.env Example.video Example.emptyResults
      Example.addonOverTarget (Or.inr rfl)).1,
    (onFaceMeshResults_no_face Example.env Example.video Example.emptyResults
      Example.addonOverTarget (Or.inr rfl)).2.2.2.2.2.2⟩

/-- C4. On a frame with a face, no addon selected and `morphAmount = 0` (or `targetLandmarks`
null), no stage runs and the output canvas holds exactly the source frame, for every target
image and target landmark set. -/
theorem onFaceMeshResults_idle_passthrough {K : Type} [LinearOrderedField K] (env : Env K)
    (video : Video K) (results : Results K) (app : App K) (lm : List (NormPoint K))
    (rest : List (List (NormPoint K))) (hface : results.multiFaceLandmarks = some (lm :: rest))
    (hno : app.selectedAddon = none)
    (hidle : app.morphAmount = 0 ∨ app.targetLandmarks = none) :
    (onFaceMeshResults env video results app).2 = [] ∧
      (onFaceMeshResults env video results app).1.output = drawVideoFrame video := by
  rw [onFaceMeshResults_face env video results app lm rest hface]
  simp only [hno, Option.isSome_none, Bool.false_eq_true, if_false]
  have hg : ¬ (app.morphAmount > 0.01 ∧ app.targetImage.isSome = true ∧
      app.targetLandmarks.isSome = true) := by
    rintro ⟨h1, -, h3⟩
    rcases hidle with h | h
    · rw [h] at h1
      norm_num at h1
    · rw [h] at h3
      simp at h3
  rw [if_neg hg]
  exact ⟨rfl, rfl⟩

/-- Witness for C4: the slider at 0 with the target of `Example.morphing` loaded. -/
theorem onFaceMeshResults_idle_passthrough_witness :
    Example.faceResults.multiFaceLandmarks =
        some ([⟨1 / 4, 1 / 2⟩, ⟨3 / 4, 1 / 2⟩, ⟨1 / 2, 1⟩] :: []) ∧
      Example.sliderAtZero.selectedAddon = none ∧
      (Example.sliderAtZero.morphAmount = 0 ∨ Example.sliderAtZero.targetLandmarks = none) ∧
      (onFaceMeshResults Example.env Example.video Example.faceResults
        Example.sliderAtZero).2 = [] ∧
      (onFaceMeshResults Example.env Example.video Example.faceResults
        Example.sliderAtZero).1.output = drawVideoFrame Example.video :=
  ⟨rfl, rfl, Or.inl rfl,
    onFaceMeshResults_idle_passthrough Example.env Example.video Example.faceResults
      Example.sliderAtZero _ _ rfl rfl (Or.inl rfl)⟩

/-- C6. On a frame with a face whose landmark list is `lm`, `cameraLandmarks` becomes a list of
the same length and order whose `i`-th point is `((1 - lm[i].x) * W, lm[i].y * H)`; for
`0 ≤ x, y ≤ 1` that point lies in `[0, W] × [0, H]`. -/
theorem onFaceMeshResults_cameraLandmarks {K : Type} [LinearOrderedField K] (env : Env K)
    (video : Video K) (results : Results K) (app : App K) (lm : List (NormPoint K))
    (rest : List (List (NormPoint K))) (hface : results.multiFaceLandmarks = some (lm :: rest)) :
    ∃ cam : Landmarks K,
      (onFaceMeshResults env video results app).1.cameraLandmarks = some cam ∧
      cam.length = lm.length ∧
      ∀ (i : ℕ) (hi : i < lm.length) (hc : i < cam.length),
        cam[i] = ((1 - lm[i].x) * (video.videoWidth : K), lm[i].y * (video.videoHeight : K)) ∧
        (0 ≤ lm[i].x → lm[i].x ≤ 1 → 0 ≤ lm[i].y → lm[i].y ≤ 1 →
          0 ≤ cam[i].1 ∧ cam[i].1 ≤ (video.videoWidth : K) ∧
          0 ≤ cam[i].2 ∧ cam[i].2 ≤ (video.videoHeight : K)) := by
  refine ⟨toPixelLandmarks video lm, ?_, ?_, ?_⟩
  · rw [onFaceMeshResults_face env video results app lm rest hface]
    simp only
    split_ifs
    · simp only [applyAddon_cameraLandmarks]
    · simp only [applyMorph_cameraLandmarks]
    · rfl
  · simp [toPixelLandmarks]
  · intro i hi hc
    have hW : (0 : K) ≤ (video.videoWidth : K) := Nat.cast_nonneg _
    have hH : (0 : K) ≤ (video.videoHeight : K) := Nat.cast_nonneg _
    have e : (toPixelLandmarks video lm)[i] =
        ((1 - lm[i].x) * (video.videoWidth : K), lm[i].y * (video.videoHeight : K)) := by
      simp [toPixelLandmarks]
    refine ⟨e, ?_⟩
    intro hx0 hx1 hy0 hy1
    rw [e]
    refine ⟨?_, ?_, ?_, ?_⟩
    · exact mul_nonneg (by linarith) hW
    · exact mul_le_of_le_one_left hW (by linarith)
    · exact mul_nonneg hy0 hH
    · exact mul_le_of_le_one_left hH hy1

/-- Witness for C6: three landmarks on a 2×2 frame. -/
theorem onFaceMeshResults_cameraLandmarks_witness :
    Example.faceResults.multiFaceLandmarks =
        some ([⟨1 / 4, 1 / 2⟩, ⟨3 / 4, 1 / 2⟩, ⟨1 / 2, 1⟩] :: []) ∧
      ∃ cam : Landmarks ℚ,
        (onFaceMeshResults Example.env Example.video Example.faceResults
          Example.initial).1.cameraLandmarks = some cam ∧
        cam.length = 3 :=
  ⟨rfl,
    (onFaceMeshResults_cameraLandmarks Example.env Example.video Example.faceResults
      Example.initial _ _ rfl).imp fun _ h => ⟨h.1, h.2.1⟩⟩

/-- The run behind the C6 witness: the three points, mirrored in `x` only. -/
theorem onFaceMeshResults_cameraLandmarks_run :
    (onFaceMeshResults Example.env Example.video Example.faceResults
      Example.initial).1.cameraLandmarks = some [(3 / 2, 1), (1 / 2, 1), (1, 2)] := by
  norm_num [onFaceMeshResults, Example.faceResults, Example.initial, toPixelLandmarks,
    Example.video]

/-! ## Addon placement -/

/-- What `applyAddon` does once its guards pass and the placement is `rect`: one `drawImage`
of the sprite at `rect`. -/
theorem applyAddon_draws {K : Type} [LinearOrderedField K] (env : Env K) (app : App K)
    (addon : Asset K) (img : Image K) (lm : Landmarks K) (rect : Rect K)
    (hcam : app.cameraLandmarks = some lm) (hsel : app.selectedAddon = some addon)
    (himg : addon.imageElement = some img)
    (hplace : addonPlacement env.sqrt addon.type img lm = some rect) :
    (applyAddon env app).2 = [Call.drawImage img rect] := by
  unfold applyAddon
  simp only [hcam, hsel, himg, hplace]
  split <;> rfl

theorem addonPlacement_eyewear {K : Type} [LinearOrderedField K] (sqrt : K → K)
    (type : Option String) (img : Image K) (lm : Landmarks K)
    (htype : type = some "glasses" ∨ type = some "sunglasses") :
    addonPlacement sqrt type img lm = placeEyewear sqrt img lm := by
  unfold addonPlacement
  rw [if_pos htype]

theorem addonPlacement_mouth {K : Type} [LinearOrderedField K] (sqrt : K → K)
    (type : Option String) (img : Image K) (lm : Landmarks K)
    (htype : type = some "moustache" ∨ type = some "beard") :
    addonPlacement sqrt type img lm = placeMouth sqrt (type == some "beard") img lm := by
  unfold addonPlacement
  rw [if_neg (by rcases htype with h | h <;> simp [h]), if_pos htype]

theorem addonPlacement_crown {K : Type} [LinearOrderedField K] (sqrt : K → K)
    (type : Option String) (img : Image K) (lm : Landmarks K)
    (htype : type = some "wig" ∨ type = some "hair") :
    addonPlacement sqrt type img lm = placeCrown sqrt img lm := by
  unfold addonPlacement
  rw [if_neg (by rcases htype with h | h <;> simp [h]),
    if_neg (by rcases htype with h | h <;> simp [h]), if_pos htype]

theorem addonPlacement_default {K : Type} [LinearOrderedField K] (sqrt : K → K)
    (type : Option String) (img : Image K) (lm : Landmarks K)
    (htype : type ∉ [some "glasses", some "sunglasses", some "moustache", some "beard",
      some "wig", some "hair"]) :
    addonPlacement sqrt type img lm = placeDefault img lm := by
  simp only [List.mem_cons, List.mem_singleton, List.not_mem_nil, or_false, not_or] at htype
  obtain ⟨h1, h2, h3, h4, h5, h6⟩ := htype
  unfold addonPlacement
  rw [if_neg (by simp [h1, h2]), if_neg (by simp [h3, h4]), if_neg (by simp [h5, h6])]

/-! ## Evaluating the fixtures -/

theorem Example.sqrtQ_sq (n : ℕ) : Example.sqrtQ ((n : ℚ) * (n : ℚ)) = (n : ℚ) := by
  have h : ((n : ℚ) * (n : ℚ)) = ((n * n : ℕ) : ℚ) := by push_cast; ring
  unfold Example.sqrtQ
  rw [h, Rat.num_natCast, Rat.den_natCast, Int.toNat_ofNat, Nat.sqrt_eq, Nat.sqrt_one]
  simp

theorem Example.tiltedFace_get (i : ℕ) (hi : i < 478) :
    Example.tiltedFace[i]? = some (Example.landmarkAt i) := by
  simp only [Example.tiltedFace, List.getElem?_map, List.getElem?_range hi, Option.map_some']

theorem Example.wearing_places (type : Option String) (rect : Rect ℚ)
    (h : addonPlacement Example.sqrtQ type Example.sprite Example.tiltedFace = some rect) :
    (applyAddon Example.env (Example.wearing type)).2 =
      [Call.drawImage Example.sprite rect] :=
  applyAddon_draws Example.env (Example.wearing type) (Example.addon type) Example.sprite
    Example.tiltedFace rect rfl rfl rfl h

theorem Example.sqrtQ_16900 : Example.sqrtQ 16900 = 130 := by
  have h := Example.sqrtQ_sq 130
  norm_num at h
  exact h

theorem Example.sqrtQ_4225 : Example.sqrtQ 4225 = 65 := by
  have h := Example.sqrtQ_sq 65
  norm_num at h
  exact h

theorem Example.sqrtQ_67600 : Example.sqrtQ 67600 = 260 := by
  have h := Example.sqrtQ_sq 260
  norm_num at h
  exact h

theorem Example.place_glasses :
    addonPlacement Example.sqrtQ (some "glasses") Example.sprite Example.tiltedFace =
      some { x := 177, y := 467 / 2, width := 286, height := 143 } := by
  rw [addonPlacement_eyewear _ _ _ _ (Or.inl rfl)]
  unfold placeEyewear
  rw [Example.tiltedFace_get 33 (by norm_num), Example.tiltedFace_get 263 (by norm_num)]
  simp only [Example.landmarkAt]
  norm_num [Example.sqrtQ_16900, Example.sprite]

theorem Example.place_beard :
    addonPlacement Example.sqrtQ (some "beard") Example.sprite Example.tiltedFace =
      some { x := 523 / 2, y := 8099 / 20, width := 117, height := 117 / 2 } := by
  rw [addonPlacement_mouth _ _ _ _ (Or.inr rfl)]
  unfold placeMouth
  rw [Example.tiltedFace_get 61 (by norm_num), Example.tiltedFace_get 291 (by norm_num)]
  simp only [Example.landmarkAt]
  norm_num [Example.sqrtQ_4225, Example.sprite]

theorem Example.place_moustache :
    addonPlacement Example.sqrtQ (some "moustache") Example.sprite Example.tiltedFace =
      some { x := 523 / 2, y := 1937 / 5, width := 117, height := 117 / 2 } := by
  rw [addonPlacement_mouth _ _ _ _ (Or.inl rfl)]
  unfold placeMouth
  rw [Example.tiltedFace_get 61 (by norm_num), Example.tiltedFace_get 291 (by norm_num)]
  simp only [Example.landmarkAt]
  have hne : ¬ ("moustache" = "beard") := by decide
  norm_num [Example.sqrtQ_4225, Example.sprite, hne]

theorem Example.place_wig :
    addonPlacement Example.sqrtQ (some "wig") Example.sprite Example.tiltedFace =
      some { x := 112, y := 22 / 5, width := 416, height := 208 } := by
  rw [addonPlacement_crown _ _ _ _ (Or.inl rfl)]
  unfold placeCrown
  rw [Example.tiltedFace_get 10 (by norm_num), Example.tiltedFace_get 234 (by norm_num),
    Example.tiltedFace_get 454 (by norm_num)]
  simp only [Example.landmarkAt]
  norm_num [Example.sqrtQ_67600, Example.sprite]

theorem Example.place_makeup :
    addonPlacement Example.sqrtQ (some "makeup") Example.sprite Example.tiltedFace =
      some { x := 212, y := 296, width := 216, height := 108 } := by
  rw [addonPlacement_default _ _ _ _ (by decide)]
  unfold placeDefault
  rw [Example.tiltedFace_get 1 (by norm_num), Example.tiltedFace_get 234 (by norm_num),
    Example.tiltedFace_get 454 (by norm_num)]
  simp only [Example.landmarkAt]
  norm_num [Example.sprite, abs_of_pos]

/-- C7. For an addon of type `glasses` or `sunglasses` and landmarks 33 and 263 present,
`applyAddon` draws a rectangle of width 2.2 × the Euclidean distance of the two eye corners,
centred exactly on their midpoint, with the height-to-width ratio of the sprite. -/
theorem applyAddon_eyewear {K : Type} [LinearOrderedField K] (env : Env K) (app : App K)
    (addon : Asset K) (img : Image K) (lm : Landmarks K) (leftEye rightEye : Point K)
    (hcam : app.cameraLandmarks = some lm) (hsel : app.selectedAddon = some addon)
    (himg : addon.imageElement = some img)
    (htype : addon.type = some "glasses" ∨ addon.type = some "sunglasses")
    (hl : lm[33]? = some leftEye) (hr : lm[263]? = some rightEye) :
    ∃ rect : Rect K,
      (applyAddon env app).2 = [Call.drawImage img rect] ∧
      rect.width = 2.2 * euclideanDistance env.sqrt leftEye rightEye ∧
      rect.centre = midpointOf leftEye rightEye ∧
      rect.height = rect.width * ((img.height : K) / (img.width : K)) ∧
      (rect.width ≠ 0 → rect.height / rect.width = (img.height : K) / (img.width : K)) := by
  have hrect := addonPlacement_eyewear env.sqrt addon.type img lm htype
  simp only [placeEyewear, hl, hr] at hrect
  refine ⟨_, applyAddon_draws env app addon img lm _ hcam hsel himg hrect, ?_, ?_, ?_, ?_⟩
  · simp only [euclideanDistance]
    ring
  · simp only [Rect.centre, midpointOf]
    ext <;> simp
  · rfl
  · intro hw
    exact mul_div_cancel_left₀ _ hw

/-- Witness for C7: glasses on the tilted face. -/
theorem applyAddon_eyewear_witness :
    (Example.wearing (some "glasses")).cameraLandmarks = some Example.tiltedFace ∧
      (Example.wearing (some "glasses")).selectedAddon =
        some (Example.addon (some "glasses")) ∧
      (Example.addon (some "glasses")).imageElement = some Example.sprite ∧
      Example.tiltedFace[33]? = some (260, 280) ∧
      Example.tiltedFace[263]? = some (380, 330) ∧
      ∃ rect : Rect ℚ,
        (applyAddon Example.env (Example.wearing (some "glasses"))).2 =
          [Call.drawImage Example.sprite rect] ∧
        rect.width = 2.2 * euclideanDistance Example.sqrtQ (260, 280) (380, 330) ∧
        rect.centre = midpointOf (260, 280) (380, 330) :=
  ⟨rfl, rfl, rfl, Example.tiltedFace_get 33 (by decide), Example.tiltedFace_get 263 (by decide),
    (applyAddon_eyewear Example.env (Example.wearing (some "glasses"))
      (Example.addon (some "glasses")) Example.sprite Example.tiltedFace (260, 280) (380, 330)
      rfl rfl rfl (Or.inl rfl) (Example.tiltedFace_get 33 (by decide))
      (Example.tiltedFace_get 263 (by decide))).imp
      fun _ h => ⟨h.1, h.2.1, h.2.2.1⟩⟩

/-- C8. For an addon of type `beard` or `moustache` and landmarks 61 and 291 present,
`applyAddon` draws a rectangle of width 1.8 × the Euclidean distance of the mouth corners,
horizontally centred on their midpoint, whose vertical centre is the midpoint's `y` plus
0.2 × height for a beard and minus 0.1 × height for a moustache. -/
theorem applyAddon_mouth {K : Type} [LinearOrderedField K] (env : Env K) (app : App K)
    (addon : Asset K) (img : Image K) (lm : Landmarks K) (mouthLeft mouthRight : Point K)
    (hcam : app.cameraLandmarks = some lm) (hsel : app.selectedAddon = some addon)
    (himg : addon.imageElement = some img)
    (htype : addon.type = some "moustache" ∨ addon.type = some "beard")
    (hl : lm[61]? = some mouthLeft) (hr : lm[291]? = some mouthRight) :
    ∃ rect : Rect K,
      (applyAddon env app).2 = [Call.drawImage img rect] ∧
      rect.width = 1.8 * euclideanDistance env.sqrt mouthLeft mouthRight ∧
      rect.centre.1 = (midpointOf mouthLeft mouthRight).1 ∧
      (addon.type = some "beard" →
        rect.centre.2 = (midpointOf mouthLeft mouthRight).2 + 0.2 * rect.height) ∧
      (addon.type = some "moustache" →
        rect.centre.2 = (midpointOf mouthLeft mouthRight).2 - 0.1 * rect.height) := by
  have hrect := addonPlacement_mouth env.sqrt addon.type img lm htype
  simp only [placeMouth, hl, hr] at hrect
  refine ⟨_, applyAddon_draws env app addon img lm _ hcam hsel himg hrect, ?_, ?_, ?_, ?_⟩
  · simp only [euclideanDistance]
    ring
  · simp [Rect.centre, midpointOf]
  · intro hb
    simp only [Rect.centre, midpointOf, hb, beq_self_eq_true, if_true]
    ring
  · intro hm
    have hne : (addon.type == some "beard") = false := by
      rw [hm]
      decide
    simp only [Rect.centre, midpointOf, hne, Bool.false_eq_true, if_false]
    ring

/-- Witness for C8: a beard and a moustache on the tilted face. -/
theorem applyAddon_mouth_witness :
    (Example.tiltedFace[61]? = some (290, 410) ∧ Example.tiltedFace[291]? = some (350, 435)) ∧
      (∃ rect : Rect ℚ,
        (applyAddon Example.env (Example.wearing (some "beard"))).2 =
          [Call.drawImage Example.sprite rect] ∧
        rect.centre.2 = (midpointOf (290, 410) (350, 435) : Point ℚ).2 + 0.2 * rect.height) ∧
      ∃ rect : Rect ℚ,
        (applyAddon Example.env (Example.wearing (some "moustache"))).2 =
          [Call.drawImage Example.sprite rect] ∧
        rect.centre.2 = (midpointOf (290, 410) (350, 435) : Point ℚ).2 - 0.1 * rect.height :=
  ⟨⟨Example.tiltedFace_get 61 (by decide), Example.tiltedFace_get 291 (by decide)⟩,
    (applyAddon_mouth Example.env (Example.wearing (some "beard"))
      (Example.addon (some "beard")) Example.sprite Example.tiltedFace (290, 410) (350, 435)
      rfl rfl rfl (Or.inr rfl) (Example.tiltedFace_get 61 (by decide))
      (Example.tiltedFace_get 291 (by decide))).imp
      fun _ h => ⟨h.1, h.2.2.2.1 rfl⟩,
    (applyAddon_mouth Example.env (Example.wearing (some "moustache"))
      (Example.addon (some "moustache")) Example.sprite Example.tiltedFace (290, 410)
      (350, 435) rfl rfl rfl (Or.inl rfl) (Example.tiltedFace_get 61 (by decide))
      (Example.tiltedFace_get 291 (by decide))).imp
      fun _ h => ⟨h.1, h.2.2.2.2 rfl⟩⟩

/-- Counterexample to C9 as stated: for a wig on the tilted face (top of head at `y = 150`)
the rectangle drawn is 416 × 208 at `(112, 22/5)`; its centre has `y = 542/5`, whereas
`y10 - 0.7 × height = 22/5`. -/
theorem applyAddon_crown_centre_counterexample :
    Example.tiltedFace[10]? = some (330, 150) ∧
      Example.tiltedFace[234]? = some (200, 300) ∧
      Example.tiltedFace[454]? = some (440, 400) ∧
      (applyAddon Example.env (Example.wearing (some "wig"))).2 =
        [Call.drawImage Example.sprite { x := 112, y := 22 / 5, width := 416, height := 208 }] ∧
      ({ x := 112, y := 22 / 5, width := 416, height := 208 } : Rect ℚ).centre.2 ≠
        150 - 0.7 * 208 := by
  refine ⟨Example.tiltedFace_get 10 (by decide), Example.tiltedFace_get 234 (by decide),
    Example.tiltedFace_get 454 (by decide), Example.wearing_places _ _ Example.place_wig, ?_⟩
  norm_num [Rect.centre]

/-- C9 (amended). For an addon of type `wig` or `hair` and landmarks 10, 234 and 454 present,
`applyAddon` draws a rectangle of width 1.6 × the Euclidean distance of landmarks 234 and 454,
horizontally centred on their midpoint, whose top edge is at `y10 - 0.7 × height`; its centre
is therefore at `y10 - 0.2 × height`. -/
theorem applyAddon_crown {K : Type} [LinearOrderedField K] (env : Env K) (app : App K)
    (addon : Asset K) (img : Image K) (lm : Landmarks K) (top left right : Point K)
    (hcam : app.cameraLandmarks = some lm) (hsel : app.selectedAddon = some addon)
    (himg : addon.imageElement = some img)
    (htype : addon.type = some "wig" ∨ addon.type = some "hair")
    (ht : lm[10]? = some top) (hl : lm[234]? = some left) (hr : lm[454]? = some right) :
    ∃ rect : Rect K,
      (applyAddon env app).2 = [Call.drawImage img rect] ∧
      rect.width = 1.6 * euclideanDistance env.sqrt left right ∧
      rect.centre.1 = (midpointOf left right).1 ∧
      rect.y = top.2 - 0.7 * rect.height ∧
      rect.centre.2 = top.2 - 0.2 * rect.height := by
  have hrect := addonPlacement_crown env.sqrt addon.type img lm htype
  simp only [placeCrown, ht, hl, hr] at hrect
  refine ⟨_, applyAddon_draws env app addon img lm _ hcam hsel himg hrect, ?_, ?_, ?_, ?_⟩
  · simp only [euclideanDistance]
    ring
  · simp [Rect.centre, midpointOf]
  · ring
  · simp only [Rect.centre]
    norm_num
    ring

/-- Witness for C9 (amended): a wig on the tilted face. -/
theorem applyAddon_crown_witness :
    (Example.tiltedFace[10]? = some (330, 150) ∧
        Example.tiltedFace[234]? = some (200, 300) ∧
        Example.tiltedFace[454]? = some (440, 400)) ∧
      ∃ rect : Rect ℚ,
        (applyAddon Example.env (Example.wearing (some "wig"))).2 =
          [Call.drawImage Example.sprite rect] ∧
        rect.width = 1.6 * euclideanDistance Example.sqrtQ (200, 300) (440, 400) ∧
        rect.centre.1 = (midpointOf (200, 300) (440, 400) : Point ℚ).1 ∧
        rect.y = 150 - 0.7 * rect.height ∧
        rect.centre.2 = 150 - 0.2 * rect.height :=
  ⟨⟨Example.tiltedFace_get 10 (by decide), Example.tiltedFace_get 234 (by decide),
      Example.tiltedFace_get 454 (by decide)⟩,
    applyAddon_crown Example.env (Example.wearing (some "wig")) (Example.addon (some "wig"))
      Example.sprite Example.tiltedFace (330, 150) (200, 300) (440, 400) rfl rfl rfl
      (Or.inl rfl) (Example.tiltedFace_get 10 (by decide))
      (Example.tiltedFace_get 234 (by decide)) (Example.tiltedFace_get 454 (by decide))⟩

/-- Counterexample to C10 as stated: for a `makeup` addon on the tilted face (face edges at
`(200, 300)` and `(440, 400)`, Euclidean distance 260) the rectangle drawn has width 216, not
`0.9 × 260 = 234`. -/
theorem applyAddon_default_width_counterexample :
    Example.tiltedFace[1]? = some (320, 350) ∧
      Example.tiltedFace[234]? = some (200, 300) ∧
      Example.tiltedFace[454]? = some (440, 400) ∧
      (applyAddon Example.env (Example.wearing (some "makeup"))).2 =
        [Call.drawImage Example.sprite { x := 212, y := 296, width := 216, height := 108 }] ∧
      euclideanDistance Example.sqrtQ (200, 300) (440, 400) = 260 ∧
      (216 : ℚ) ≠ 0.9 * euclideanDistance Example.sqrtQ (200, 300) (440, 400) := by
  have hd : euclideanDistance Example.sqrtQ (200, 300) (440, 400) = 260 := by
    unfold euclideanDistance
    norm_num [Example.sqrtQ_67600]
  refine ⟨Example.tiltedFace_get 1 (by decide), Example.tiltedFace_get 234 (by decide),
    Example.tiltedFace_get 454 (by decide), Example.wearing_places _ _ Example.place_makeup,
    hd, ?_⟩
  rw [hd]
  norm_num

/-- C10 (amended). For an addon whose type is none of `glasses`, `sunglasses`, `moustache`,
`beard`, `wig`, `hair` and landmarks 1, 234 and 454 present, `applyAddon` draws a rectangle
centred on the nose landmark 1 of width 0.9 × the horizontal extent `|x454 - x234|`; where
`Math.sqrt` is a true square root of the crown rule's radicand, that width is 0.9 × the crown
rule's face width exactly when landmarks 234 and 454 have the same `y`. -/
theorem applyAddon_default {K : Type} [LinearOrderedField K] (env : Env K) (app : App K)
    (addon : Asset K) (img : Image K) (lm : Landmarks K) (nosePoint faceLeft faceRight : Point K)
    (hcam : app.cameraLandmarks = some lm) (hsel : app.selectedAddon = some addon)
    (himg : addon.imageElement = some img)
    (htype : addon.type ∉ [some "glasses", some "sunglasses", some "moustache", some "beard",
      some "wig", some "hair"])
    (hn : lm[1]? = some nosePoint) (hl : lm[234]? = some faceLeft)
    (hr : lm[454]? = some faceRight) :
    ∃ rect : Rect K,
      (applyAddon env app).2 = [Call.drawImage img rect] ∧
      rect.centre = nosePoint ∧
      rect.width = 0.9 * |faceRight.1 - faceLeft.1| ∧
      (0 ≤ euclideanDistance env.sqrt faceLeft faceRight →
        euclideanDistance env.sqrt faceLeft faceRight ^ 2 =
          (faceRight.1 - faceLeft.1) ^ 2 + (faceRight.2 - faceLeft.2) ^ 2 →
        (rect.width = 0.9 * euclideanDistance env.sqrt faceLeft faceRight ↔
          faceLeft.2 = faceRight.2)) := by
  have hrect := addonPlacement_default env.sqrt addon.type img lm htype
  simp only [placeDefault, hn, hl, hr] at hrect
  refine ⟨_, applyAddon_draws env app addon img lm _ hcam hsel himg hrect, ?_, ?_, ?_⟩
  · simp only [Rect.centre]
    ext <;> simp
  · ring
  · intro h0 hsq
    simp only
    have h9 : (0.9 : K) ≠ 0 := by norm_num
    rw [mul_comm, mul_right_inj' h9]
    constructor
    · intro h
      have h2 : (faceRight.2 - faceLeft.2) ^ 2 = 0 := by
        have := hsq
        rw [← h, sq_abs] at this
        linarith
      have h3 : faceRight.2 - faceLeft.2 = 0 := by simpa using h2
      linarith
    · intro h
      have h2 : euclideanDistance env.sqrt faceLeft faceRight ^ 2 =
          |faceRight.1 - faceLeft.1| ^ 2 := by
        rw [hsq, sq_abs, h]
        ring
      exact ((sq_eq_sq₀ h0 (abs_nonneg _)).mp h2).symm

/-- Witness for C10 (amended): a `makeup` addon on the tilted face. -/
theorem applyAddon_default_witness :
    (Example.tiltedFace[1]? = some (320, 350) ∧
        Example.tiltedFace[234]? = some (200, 300) ∧
        Example.tiltedFace[454]? = some (440, 400)) ∧
      ∃ rect : Rect ℚ,
        (applyAddon Example.env (Example.wearing (some "makeup"))).2 =
          [Call.drawImage Example.sprite rect] ∧
        rect.centre = (320, 350) ∧
        rect.width = 0.9 * |(440 : ℚ) - 200| :=
  ⟨⟨Example.tiltedFace_get 1 (by decide), Example.tiltedFace_get 234 (by decide),
      Example.tiltedFace_get 454 (by decide)⟩,
    (applyAddon_default Example.env (Example.wearing (some "makeup"))
      (Example.addon (some "makeup")) Example.sprite Example.tiltedFace (320, 350) (200, 300)
      (440, 400) rfl rfl rfl (by decide) (Example.tiltedFace_get 1 (by decide))
      (Example.tiltedFace_get 234 (by decide)) (Example.tiltedFace_get 454 (by decide))).imp
      fun _ h => ⟨h.1, h.2.1, h.2.2.1⟩⟩

/-! ## The compositor -/

theorem pixelAt_zipWith {K : Type} (f : Pixel K → WarpSample K → Pixel K) (source : Bitmap K)
    (samples : List (List (WarpSample K))) (x y : ℕ) (s : Pixel K) (w : WarpSample K)
    (hs : source.pixelAt x y = some s) (hw : sampleAt samples x y = some w) :
    Bitmap.pixelAt { source with rows := List.zipWith (List.zipWith f) source.rows samples }
      x y = some (f s w) := by
  unfold Bitmap.pixelAt at hs ⊢
  unfold sampleAt at hw
  simp only [List.getElem?_zipWith]
  cases h1 : source.rows[y]? with
  | none => simp [h1] at hs
  | some row =>
    cases h2 : samples[y]? with
    | none => simp [h2] at hw
    | some srow =>
      simp only [h1, Option.some_bind] at hs
      simp only [h2, Option.some_bind] at hw
      simp only [Option.some_bind, List.getElem?_zipWith, hs, hw]

/-- C5. In the buffer `morphFace` produces for a request with blend factor `α` (any `α`, in
particular `α` in `[0, 1]`), a pixel covered by the mesh is
`(1 - α) * source + α * warped_target` in every channel, a pixel of coverage 0 is the source
pixel whatever `α` is, and at `α = 1` the buffer is the fully target-warped buffer. -/
theorem morphFace_blend {K : Type} [LinearOrderedField K]
    (warp : MorphRequest K → List (List (WarpSample K))) (req : MorphRequest K) (x y : ℕ)
    (s : Pixel K) (w : WarpSample K)
    (hs : req.source.pixelAt x y = some s) (hw : sampleAt (warp req) x y = some w) :
    ∃ out : Pixel K,
      (MorphEngine.morphFace warp req).pixelAt x y = some out ∧
      (w.coverage ≠ 0 →
        out.r = (1 - req.alpha) * s.r + req.alpha * w.color.r ∧
        out.g = (1 - req.alpha) * s.g + req.alpha * w.color.g ∧
        out.b = (1 - req.alpha) * s.b + req.alpha * w.color.b ∧
        out.a = (1 - req.alpha) * s.a + req.alpha * w.color.a) ∧
      (w.coverage = 0 → out = s) ∧
      (req.alpha = 1 → w.coverage ≠ 0 → out = w.color) ∧
      (req.alpha = 1 → MorphEngine.morphFace warp req = MorphEngine.warpedBuffer warp req) := by
  refine ⟨MorphEngine.blendPixel req.alpha s w,
    pixelAt_zipWith _ req.source (warp req) x y s w hs hw, ?_, ?_, ?_, ?_⟩
  · intro hc
    simp [MorphEngine.blendPixel, hc]
  · intro hc
    simp [MorphEngine.blendPixel, hc]
  · intro h1 hc
    simp [MorphEngine.blendPixel, hc, h1]
  · intro h1
    have hf : MorphEngine.blendPixel req.alpha =
        fun (s : Pixel K) (w : WarpSample K) => if w.coverage = 0 then s else w.color := by
      funext s w
      unfold MorphEngine.blendPixel
      split_ifs
      · rfl
      · simp [h1]
    unfold MorphEngine.morphFace MorphEngine.warpedBuffer
    rw [hf]

/-- Witness for C5: the covered left pixel of a red source under a blue target at `α = 1/2`. -/
theorem morphFace_blend_witness :
    ((0 : ℚ) ≤ Example.request.alpha ∧ Example.request.alpha ≤ 1) ∧
      Example.request.source.pixelAt 0 0 = some Example.red ∧
      sampleAt (Example.warp Example.request) 0 0 =
        some { color := Example.blue, coverage := 1 } ∧
      ∃ out : Pixel ℚ,
        (MorphEngine.morphFace Example.warp Example.request).pixelAt 0 0 = some out ∧
        ((1 : ℚ) ≠ 0 →
          out.r = (1 - Example.request.alpha) * Example.red.r +
            Example.request.alpha * Example.blue.r) :=
  ⟨⟨by norm_num [Example.request], by norm_num [Example.request]⟩, rfl, rfl,
    (morphFace_blend Example.warp Example.request 0 0 Example.red
      { color := Example.blue, coverage := 1 } rfl rfl).imp
      fun _ h => ⟨h.1, fun hc => (h.2.1 hc).1⟩⟩

/-- The run behind the C5 witness: half red and half blue on the covered pixel, the source
red on the pixel outside the mesh. -/
theorem morphFace_request_run :
    (MorphEngine.morphFace Example.warp Example.request).rows =
      [[{ r := 255 / 2, g := 0, b := 255 / 2, a := 255 }, Example.red]] := by
  unfold MorphEngine.morphFace Example.warp Example.request
  norm_num [MorphEngine.blendPixel, Example.red, Example.blue]

/-! ## Anchors and placement -/

theorem placeEyewear_isSome {K : Type} [LinearOrderedField K] (sqrt : K → K) (img : Image K)
    (lm : Landmarks K) :
    (placeEyewear sqrt img lm).isSome = true ↔ ∀ i ∈ [33, 263], (lm[i]?).isSome = true := by
  unfold placeEyewear
  cases h1 : lm[33]? <;> cases h2 : lm[263]? <;> simp [h1, h2]

theorem placeMouth_isSome {K : Type} [LinearOrderedField K] (sqrt : K → K) (isBeard : Bool)
    (img : Image K) (lm : Landmarks K) :
    (placeMouth sqrt isBeard img lm).isSome = true ↔
      ∀ i ∈ [61, 291], (lm[i]?).isSome = true := by
  unfold placeMouth
  cases h1 : lm[61]? <;> cases h2 : lm[291]? <;> simp [h1, h2]

theorem placeCrown_isSome {K : Type} [LinearOrderedField K] (sqrt : K → K) (img : Image K)
    (lm : Landmarks K) :
    (placeCrown sqrt img lm).isSome = true ↔
      ∀ i ∈ [10, 234, 454], (lm[i]?).isSome = true := by
  unfold placeCrown
  cases h1 : lm[10]? <;> cases h2 : lm[234]? <;> cases h3 : lm[454]? <;> simp [h1, h2, h3]

theorem placeDefault_isSome {K : Type} [LinearOrderedField K] (img : Image K)
    (lm : Landmarks K) :
    (placeDefault img lm).isSome = true ↔ ∀ i ∈ [1, 234, 454], (lm[i]?).isSome = true := by
  unfold placeDefault
  cases h1 : lm[1]? <;> cases h2 : lm[234]? <;> cases h3 : lm[454]? <;> simp [h1, h2, h3]

/-- The `switch` of `applyAddon` yields a rectangle exactly when every anchor its branch
requires is present. -/
theorem addonPlacement_isSome {K : Type} [LinearOrderedField K] (sqrt : K → K)
    (type : Option String) (img : Image K) (lm : Landmarks K) :
    (addonPlacement sqrt type img lm).isSome = true ↔
      ∀ i ∈ requiredAnchors type, (lm[i]?).isSome = true := by
  unfold addonPlacement requiredAnchors
  split_ifs
  · exact placeEyewear_isSome sqrt img lm
  · exact placeMouth_isSome sqrt _ img lm
  · exact placeCrown_isSome sqrt img lm
  · exact placeDefault_isSome img lm

/-- C11. With an addon selected, `applyAddon` returns without drawing and leaves the state (the
output canvas included) unchanged when `cameraLandmarks` is null, when the sprite failed to
load, or when an anchor landmark required by the addon type is absent; otherwise it issues
exactly one `drawImage` of the sprite, and the output canvas is the result of that one call
(or is unchanged when that call throws). -/
theorem applyAddon_all_or_nothing {K : Type} [LinearOrderedField K] (env : Env K)
    (app : App K) (addon : Asset K) (hsel : app.selectedAddon = some addon) :
    ((app.cameraLandmarks = none ∨ addon.imageElement = none ∨
        ∃ lm, app.cameraLandmarks = some lm ∧
          ∃ i ∈ requiredAnchors addon.type, lm[i]? = none) →
      applyAddon env app = (app, [])) ∧
    (∀ lm img, app.cameraLandmarks = some lm → addon.imageElement = some img →
      (∀ i ∈ requiredAnchors addon.type, (lm[i]?).isSome = true) →
      ∃ rect : Rect K,
        (applyAddon env app).2 = [Call.drawImage img rect] ∧
        (applyAddon env app).1 =
          match env.drawImage app.output img rect with
          | some out => { app with output := out }
          | none => app) := by
  constructor
  · rintro (hcam | himg | ⟨lm, hcam, i, hi, hnone⟩)
    · unfold applyAddon
      simp only [hcam]
    · unfold applyAddon
      cases hcam : app.cameraLandmarks with
      | none => rfl
      | some lm => simp only [hsel, himg]
    · unfold applyAddon
      simp only [hcam, hsel]
      cases himg : addon.imageElement with
      | none => rfl
      | some img =>
        have hn : addonPlacement env.sqrt addon.type img lm = none := by
          rw [← Option.not_isSome_iff_eq_none, addonPlacement_isSome]
          intro hall
          have := hall i hi
          rw [hnone] at this
          simp at this
        simp only [hn]
  · intro lm img hcam himg hall
    have hs := (addonPlacement_isSome env.sqrt addon.type img lm).mpr hall
    obtain ⟨rect, hrect⟩ := Option.isSome_iff_exists.mp hs
    refine ⟨rect, applyAddon_draws env app addon img lm rect hcam hsel himg hrect, ?_⟩
    unfold applyAddon
    simp only [hcam, hsel, himg, hrect]
    split <;> rfl

/-- Witness for C11: glasses on the tilted face are drawn once; on a landmark set of two
points nothing is drawn and the state is unchanged. -/
theorem applyAddon_all_or_nothing_witness :
    Example.shortFace.selectedAddon = some (Example.addon (some "glasses")) ∧
      applyAddon Example.env Example.shortFace = (Example.shortFace, []) ∧
      (applyAddon Example.env (Example.wearing (some "glasses"))).2 =
        [Call.drawImage Example.sprite { x := 177, y := 467 / 2, width := 286, height := 143 }] :=
  ⟨rfl,
    (applyAddon_all_or_nothing Example.env Example.shortFace (Example.addon (some "glasses"))
      rfl).1 (Or.inr (Or.inr ⟨_, rfl, 33, by decide, rfl⟩)),
    Example.wearing_places _ _ Example.place_glasses⟩

/-! ## The morph slider -/

theorem parseInt_toString (p : ℕ) (hp : p ≤ 100) : parseInt (toString p) = some (p : ℤ) := by
  interval_cases p <;> rfl

/-- C12. For every integer percentage `p` with `0 ≤ p ≤ 100` delivered by the slider, the
input handler sets `morphAmount` to exactly `p / 100`; that value lies in `[0, 1]`, is 0 for
`p = 0` and 1 for `p = 100`, and is strictly increasing in `p`. -/
theorem onMorphSliderInput_percent {K : Type} [LinearOrderedField K] (app : App K) (p : ℕ)
    (hp : p ≤ 100) :
    ∃ app1 : App K,
      onMorphSliderInput (toString p) app = some app1 ∧
      app1.morphAmount = (p : K) / 100 ∧
      0 ≤ app1.morphAmount ∧ app1.morphAmount ≤ 1 ∧
      (p = 0 → app1.morphAmount = 0) ∧
      (p = 100 → app1.morphAmount = 1) ∧
      ∀ (q : ℕ) (st : App K), q ≤ 100 → p < q →
        ∃ app2 : App K,
          onMorphSliderInput (toString q) st = some app2 ∧
          app1.morphAmount < app2.morphAmount := by
  have run : ∀ (n : ℕ) (st : App K), n ≤ 100 →
      onMorphSliderInput (toString n) st =
        some { st with morphAmount := (n : K) / 100, morphValueText := toString n ++ "%" } := by
    intro n st hn
    unfold onMorphSliderInput
    rw [parseInt_toString n hn]
    simp
  have h100 : (0 : K) < 100 := by norm_num
  refine ⟨_, run p app hp, rfl, ?_, ?_, ?_, ?_, ?_⟩
  · exact div_nonneg (Nat.cast_nonneg p) h100.le
  · show (p : K) / 100 ≤ 1
    rw [div_le_one h100]
    exact_mod_cast hp
  · intro h0
    show (p : K) / 100 = 0
    rw [h0]
    simp
  · intro h1
    show (p : K) / 100 = 1
    rw [h1]
    norm_num
  · intro q st hq hpq
    refine ⟨_, run q st hq, ?_⟩
    show (p : K) / 100 < (q : K) / 100
    exact div_lt_div_of_pos_right (by exact_mod_cast hpq) h100

/-- Witness for C12: the slider at 37 on the state right after construction. -/
theorem onMorphSliderInput_percent_witness :
    37 ≤ 100 ∧
      ∃ app1 : App ℚ,
        onMorphSliderInput (toString 37) Example.initial = some app1 ∧
        app1.morphAmount = ((37 : ℕ) : ℚ) / 100 :=
  ⟨by decide,
    (onMorphSliderInput_percent Example.initial 37 (by decide)).imp
      fun _ h => ⟨h.1, h.2.1⟩⟩

/-- The run behind the C12 witness. -/
theorem onMorphSliderInput_run :
    onMorphSliderInput "37" Example.initial =
      some { Example.initial with morphAmount := 37 / 100, morphValueText := "37%" } := by
  unfold onMorphSliderInput
  rw [show parseInt "37" = some 37 from rfl]
  simp

/-! ## Selecting an asset -/

theorem applyAddon_state {K : Type} [LinearOrderedField K] (env : Env K) (app : App K) :
    ∃ out, (applyAddon env app).1 = { app with output := out } := by
  unfold applyAddon
  split
  · split
    · exact ⟨app.output, rfl⟩
    · split
      · exact ⟨app.output, rfl⟩
      · split
        · exact ⟨_, rfl⟩
        · exact ⟨app.output, rfl⟩
  · exact ⟨app.output, rfl⟩

theorem applyMorph_state {K : Type} (env : Env K) (video : Video K) (app : App K) :
    ∃ out, (applyMorph env video app).1 = { app with output := out } := by
  unfold applyMorph
  split
  · exact ⟨app.output, rfl⟩
  · simp only
    split
    · exact ⟨app.output, rfl⟩
    · split
      · exact ⟨app.output, rfl⟩
      · split
        · exact ⟨app.output, rfl⟩
        · exact ⟨_, rfl⟩

/-- A frame leaves the selection and the cached target as they are. -/
theorem onFaceMeshResults_target {K : Type} [LinearOrderedField K] (env : Env K)
    (video : Video K) (results : Results K) (app : App K) :
    (onFaceMeshResults env video results app).1.selectedAddon = app.selectedAddon ∧
      (onFaceMeshResults env video results app).1.targetImage = app.targetImage ∧
      (onFaceMeshResults env video results app).1.targetLandmarks = app.targetLandmarks ∧
      (onFaceMeshResults env video results app).1.targetCanvas = app.targetCanvas := by
  unfold onFaceMeshResults
  simp only
  split
  · split_ifs
    · obtain ⟨out, h⟩ := applyAddon_state env
        { app with
          output := drawVideoFrame video
          cameraLandmarks := some (toPixelLandmarks video ‹_›)
          faceDetected := true
          noFaceWarning := false }
      simp [h]
    · obtain ⟨out, h⟩ := applyMorph_state env video
        { app with
          output := drawVideoFrame video
          cameraLandmarks := some (toPixelLandmarks video ‹_›)
          faceDetected := true
          noFaceWarning := false }
      simp [h]
    · exact ⟨rfl, rfl, rfl, rfl⟩
  · exact ⟨rfl, rfl, rfl, rfl⟩

theorem quietTick_target {K : Type} [LinearOrderedField K] (env : Env K) (t : QuietTick K)
    (app : App K) :
    (quietTick env t app).1.selectedAddon = app.selectedAddon ∧
      (quietTick env t app).1.targetLandmarks = app.targetLandmarks := by
  cases t with
  | frame video results =>
    exact ⟨(onFaceMeshResults_target env video results app).1,
      (onFaceMeshResults_target env video results app).2.2.1⟩
  | morphAmount value => exact ⟨rfl, rfl⟩

theorem runQuiet_target {K : Type} [LinearOrderedField K] (env : Env K)
    (ts : List (QuietTick K)) (app : App K) :
    (runQuiet env ts app).1.selectedAddon = app.selectedAddon ∧
      (runQuiet env ts app).1.targetLandmarks = app.targetLandmarks := by
  induction ts generalizing app with
  | nil => exact ⟨rfl, rfl⟩
  | cons t ts ih =>
    simp only [runQuiet]
    rw [(ih _).1, (ih _).2]
    exact quietTick_target env t app

/-- Without an addon and without target landmarks a frame runs no stage and shows the frame
that was drawn first. -/
theorem onFaceMeshResults_without_landmarks {K : Type} [LinearOrderedField K] (env : Env K)
    (video : Video K) (results : Results K) (app : App K) (hsel : app.selectedAddon = none)
    (hlm : app.targetLandmarks = none) :
    (onFaceMeshResults env video results app).2 = [] ∧
      (onFaceMeshResults env video results app).1.output = drawVideoFrame video := by
  unfold onFaceMeshResults
  simp only [hsel, hlm]
  split
  · simp
  · exact ⟨rfl, rfl⟩

theorem runQuiet_without_landmarks {K : Type} [LinearOrderedField K] (env : Env K)
    (ts : List (QuietTick K)) (app : App K) (hsel : app.selectedAddon = none)
    (hlm : app.targetLandmarks = none) : (runQuiet env ts app).2 = [] := by
  induction ts generalizing app with
  | nil => rfl
  | cons t ts ih =>
    simp only [runQuiet]
    rw [ih _ ((quietTick_target env t app).1.trans hsel) ((quietTick_target env t app).2.trans hlm)]
    cases t with
    | frame video results =>
      simp [quietTick, (onFaceMeshResults_without_landmarks env video results app hsel hlm).1]
    | morphAmount value => rfl

/-- The state in which `selectAsset` is suspended at line 516 for a face target whose image
arrived. -/
theorem selectAsset_after_image {K : Type} (net : Network K) (app : App K) (index : ℕ)
    (asset : Asset K) (img : Image K) (hasset : app.currentAssets[index]? = some asset)
    (hface : asset.isAddon = false) (himg : net.loadImage asset.image = .ok img) :
    selectAsset net index app =
      match afterFetch asset (net.fetch asset.landmarks)
          { app with
            selectedImageIndex := index
            selectedAddon := none
            targetImage := some img
            targetCanvas :=
              { width := img.width, height := img.height, rows := img.bitmap.rows } } with
      | (app3, none) => app3
      | (app3, some response) => afterJson asset response.json app3 := by
  unfold selectAsset selectAssetStart
  simp only [hasset, hface, himg, afterLoadImage, Bool.false_eq_true, if_false]

/-- The uninterrupted case of a missing landmark file.  When a call of `selectAsset` on a face
target whose image loads and whose landmark file cannot be fetched runs from its first line
to its last, it ends in the inner `catch`: `targetLandmarks` is null and an error status is
shown; and through a quiet period after it (no selection, no suspended `selectAsset` call)
no stage is invoked and every frame shows the source frame.  A target whose landmark file
loads gets image and landmarks, and its frames are morphed as soon as `morphAmount > 0.01`.
Nothing is said here about a call that is made while an earlier one is still suspended. -/
theorem selectAsset_missing_landmarks_quiet {K : Type} [LinearOrderedField K] (net : Network K)
    (env : Env K) (app : App K) (index : ℕ) (asset : Asset K) (img : Image K)
    (hasset : app.currentAssets[index]? = some asset) (hface : asset.isAddon = false)
    (himg : net.loadImage asset.image = .ok img) :
    (((∃ e, net.fetch asset.landmarks = .error e) ∨
        ∃ r, net.fetch asset.landmarks = .ok r ∧ r.ok = false) →
      selectAsset net index app =
        noLandmarks asset
          { app with
            selectedImageIndex := index
            selectedAddon := none
            targetImage := some img
            targetCanvas :=
              { width := img.width, height := img.height, rows := img.bitmap.rows } } ∧
      (selectAsset net index app).targetLandmarks = none ∧
      (selectAsset net index app).status = some ("No landmarks for " ++ asset.name, true) ∧
      ∀ ticks : List (QuietTick K),
        (runQuiet env ticks (selectAsset net index app)).2 = [] ∧
        Call.applyMorph ∉ (runQuiet env ticks (selectAsset net index app)).2 ∧
        ∀ video results,
          (onFaceMeshResults env video results
            (runQuiet env ticks (selectAsset net index app)).1).2 = [] ∧
          (onFaceMeshResults env video results
            (runQuiet env ticks (selectAsset net index app)).1).1.output =
              drawVideoFrame video) ∧
    (∀ r lm, net.fetch asset.landmarks = .ok r → r.ok = true → r.json = .ok (some lm) →
      (selectAsset net index app).targetImage = some img ∧
      (selectAsset net index app).targetLandmarks = some lm ∧
      (selectAsset net index app).status = app.status ∧
      ∀ (m : K) video results face rest, m > 0.01 →
        results.multiFaceLandmarks = some (face :: rest) →
        Call.applyMorph ∈ (onFaceMeshResults env video results
          { selectAsset net index app with morphAmount := m }).2) := by
  have hrun := selectAsset_after_image net app index asset img hasset hface himg
  constructor
  · intro hfetch
    have hfinal : selectAsset net index app =
        noLandmarks asset
          { app with
            selectedImageIndex := index
            selectedAddon := none
            targetImage := some img
            targetCanvas :=
              { width := img.width, height := img.height, rows := img.bitmap.rows } } := by
      rw [hrun]
      rcases hfetch with ⟨e, he⟩ | ⟨r, hr, hok⟩
      · simp only [he, afterFetch]
      · simp only [hr, afterFetch, hok, Bool.false_eq_true, if_false]
    have hsel : (selectAsset net index app).selectedAddon = none := by rw [hfinal]; rfl
    have hlm : (selectAsset net index app).targetLandmarks = none := by rw [hfinal]; rfl
    refine ⟨hfinal, hlm, by rw [hfinal]; rfl, ?_⟩
    intro ticks
    have htr := runQuiet_without_landmarks env ticks _ hsel hlm
    refine ⟨htr, by rw [htr]; simp, ?_⟩
    intro video results
    exact onFaceMeshResults_without_landmarks env video results _
      ((runQuiet_target env ticks _).1.trans hsel) ((runQuiet_target env ticks _).2.trans hlm)
  · intro r lm hr hok hjson
    have hfinal : selectAsset net index app =
        { app with
          selectedImageIndex := index
          selectedAddon := none
          targetImage := some img
          targetCanvas := { width := img.width, height := img.height, rows := img.bitmap.rows }
          targetLandmarks := some lm } := by
      rw [hrun]
      simp only [hr, afterFetch, hok, if_true, hjson, afterJson]
    refine ⟨by rw [hfinal], by rw [hfinal], by rw [hfinal], ?_⟩
    intro m video results face rest hm hres
    rw [onFaceMeshResults_face env video results _ face rest hres]
    simp only [hfinal, Option.isSome_none, Bool.false_eq_true, if_false]
    rw [if_pos ⟨hm, rfl, rfl⟩]
    exact List.mem_cons_self _ _

/-- The uninterrupted case on `steve`, whose landmark file the server does not have. -/
theorem selectAsset_missing_landmarks_quiet_run :
    Example.gallery.currentAssets[2]? = some Example.steve ∧
      Example.steve.isAddon = false ∧
      Example.network.loadImage Example.steve.image = .ok Example.steveImg ∧
      (∃ r, Example.network.fetch Example.steve.landmarks = .ok r ∧ r.ok = false) ∧
      (selectAsset Example.network 2 Example.gallery).targetLandmarks = none ∧
      (selectAsset Example.network 2 Example.gallery).status =
        some ("No landmarks for " ++ Example.steve.name, true) :=
  ⟨rfl, rfl, rfl, ⟨_, rfl, rfl⟩,
    ((selectAsset_missing_landmarks_quiet Example.network Example.env Example.gallery 2
      Example.steve Example.steveImg rfl rfl rfl).1 (Or.inr ⟨_, rfl, rfl⟩)).2.1,
    ((selectAsset_missing_landmarks_quiet Example.network Example.env Example.gallery 2
      Example.steve Example.steveImg rfl rfl rfl).1 (Or.inr ⟨_, rfl, rfl⟩)).2.2.1⟩

/-- C13, the code at the failing input.  The call `selectAsset(0)` for `tom` is suspended at
its fetch (line 516) when `selectAsset(2)` is made for `steve`, whose image loads and whose
landmark file is missing.  That call ends in the inner `catch`, with `targetLandmarks` null
and the error status shown.  No asset is selected afterwards.  When the fetch for `tom` then
settles, lines 516-519 store the landmarks of `tom` next to the image of `steve`, and the
next frame invokes `applyMorph` and reaches `morphFace`. -/
theorem selectAsset_stale_fetch_after_missing_landmarks :
    (selectAssetStart 0 Example.gallery).2 = some Example.tom ∧
      afterLoadImage Example.tom (Example.network.loadImage Example.tom.image)
        (selectAssetStart 0 Example.gallery).1 = (Example.tomFetchPending, true) ∧
      Example.tomFetchPending.currentAssets[2]? = some Example.steve ∧
      Example.network.loadImage Example.steve.image = .ok Example.steveImg ∧
      Example.network.fetch Example.steve.landmarks =
        .ok { ok := false, json := .error "Unexpected token" } ∧
      Example.steveFailed.targetLandmarks = none ∧
      Example.steveFailed.status = some ("No landmarks for Steve", true) ∧
      Example.steveFailed.selectedImageIndex = 2 ∧
      afterFetch Example.tom (Example.network.fetch Example.tom.landmarks)
          Example.steveFailed =
        (Example.steveFailed, some { ok := true, json := .ok (some Example.tomLandmarks) }) ∧
      Example.tomLandmarksArrived.selectedImageIndex = 2 ∧
      Example.tomLandmarksArrived.targetImage = some Example.steveImg ∧
      Example.tomLandmarksArrived.targetLandmarks = some Example.tomLandmarks ∧
      (onFaceMeshResults Example.env Example.video Example.faceResults
        Example.tomLandmarksArrived).2 =
        [Call.applyMorph,
          Call.morphFace (drawVideoFrame Example.video) Example.steveImg.bitmap
            (some [(3 / 2, 1), (1 / 2, 1), (1, 2)]) (some Example.tomLandmarks) (1 / 2),
          Call.putImageData Example.steveImg.bitmap] ∧
      Call.applyMorph ∈ (onFaceMeshResults Example.env Example.video Example.faceResults
        Example.tomLandmarksArrived).2 := by
  have htrace : (onFaceMeshResults Example.env Example.video Example.faceResults
        Example.tomLandmarksArrived).2 =
        [Call.applyMorph,
          Call.morphFace (drawVideoFrame Example.video) Example.steveImg.bitmap
            (some [(3 / 2, 1), (1 / 2, 1), (1, 2)]) (some Example.tomLandmarks) (1 / 2),
          Call.putImageData Example.steveImg.bitmap] := by
    rw [onFaceMeshResults_face Example.env Example.video Example.faceResults _ _ _ rfl]
    have hno : Example.tomLandmarksArrived.selectedAddon = none := rfl
    have hm : Example.tomLandmarksArrived.morphAmount = 1 / 2 := rfl
    have himg : Example.tomLandmarksArrived.targetImage = some Example.steveImg := rfl
    have hlm : Example.tomLandmarksArrived.targetLandmarks = some Example.tomLandmarks := rfl
    have hcv : Example.tomLandmarksArrived.targetCanvas = Example.steveImg.bitmap := rfl
    simp only [hno, hm, himg, hlm, Option.isSome_none, Bool.false_eq_true, if_false]
    rw [if_pos ⟨by norm_num, rfl, rfl⟩]
    norm_num [applyMorph, Example.env, toPixelLandmarks, Example.video, drawVideoFrame,
      hlm, hcv, Example.steveImg]
  refine ⟨rfl, rfl, rfl, rfl, rfl, rfl, rfl, rfl, rfl, rfl, rfl, rfl, htrace, ?_⟩
  rw [htrace]
  exact List.mem_cons_self _ _

/-- Counterexample to C14 as stated: with `tom` selected at index 0, `selectAsset(3)` on
`dustin`, whose image does not load, leaves `selectedImageIndex = 3`. -/
theorem selectAsset_load_failure_counterexample :
    Example.tomSelected.currentAssets[3]? = some Example.dustin ∧
      Example.network.loadImage Example.dustin.image =
        .error "Failed to load image: assets/celebs/Dustin.jpg" ∧
      Example.tomSelected.selectedImageIndex = 0 ∧
      (selectAsset Example.network 3 Example.tomSelected).selectedImageIndex = 3 ∧
      (selectAsset Example.network 3 Example.tomSelected).selectedImageIndex ≠
        Example.tomSelected.selectedImageIndex :=
  ⟨rfl, rfl, rfl, rfl, by decide⟩

/-- C14 (amended). When `selectAsset(index)` is called on a face target whose image cannot be
loaded, the call ends in the outer `catch`: an error status is shown, and `targetImage`,
`targetLandmarks` and the target canvas are the same after the call as before it, while
`selectedImageIndex` is `index` and `selectedAddon` is null. -/
theorem selectAsset_load_failure {K : Type} (net : Network K) (app : App K) (index : ℕ)
    (asset : Asset K) (reason : String) (hasset : app.currentAssets[index]? = some asset)
    (hface : asset.isAddon = false) (himg : net.loadImage asset.image = .error reason) :
    selectAsset net index app =
        showStatus ("Failed to load " ++ asset.name) true
          { app with selectedImageIndex := index, selectedAddon := none } ∧
      (selectAsset net index app).status = some ("Failed to load " ++ asset.name, true) ∧
      (selectAsset net index app).targetImage = app.targetImage ∧
      (selectAsset net index app).targetLandmarks = app.targetLandmarks ∧
      (selectAsset net index app).targetCanvas = app.targetCanvas ∧
      (selectAsset net index app).selectedImageIndex = index ∧
      (selectAsset net index app).selectedAddon = none := by
  have hfinal : selectAsset net index app =
      showStatus ("Failed to load " ++ asset.name) true
        { app with selectedImageIndex := index, selectedAddon := none } := by
    unfold selectAsset selectAssetStart
    simp only [hasset, hface, himg, afterLoadImage, Bool.false_eq_true, if_false]
  refine ⟨hfinal, ?_, ?_, ?_, ?_, ?_, ?_⟩ <;> rw [hfinal] <;> rfl

/-- Witness for C14 (amended): `dustin` selected while `tom` is the target. -/
theorem selectAsset_load_failure_witness :
    Example.tomSelected.currentAssets[3]? = some Example.dustin ∧
      Example.dustin.isAddon = false ∧
      Example.network.loadImage Example.dustin.image =
        .error "Failed to load image: assets/celebs/Dustin.jpg" ∧
      (selectAsset Example.network 3 Example.tomSelected).status =
        some ("Failed to load " ++ Example.dustin.name, true) ∧
      (selectAsset Example.network 3 Example.tomSelected).targetImage =
        Example.tomSelected.targetImage ∧
      (selectAsset Example.network 3 Example.tomSelected).targetLandmarks =
        Example.tomSelected.targetLandmarks :=
  ⟨rfl, rfl, rfl,
    (selectAsset_load_failure Example.network Example.tomSelected 3 Example.dustin _
      rfl rfl rfl).2.1,
    (selectAsset_load_failure Example.network Example.tomSelected 3 Example.dustin _
      rfl rfl rfl).2.2.1,
    (selectAsset_load_failure Example.network Example.tomSelected 3 Example.dustin _
      rfl rfl rfl).2.2.2.1⟩

/-- C15, the code at the failing input.  While `tom` is the target, `selectAsset(1)` starts
for `salah` and is suspended at line 507 and, once the image of `salah` has arrived, at line
516.  In that state the target image and canvas are those of `salah` and the landmarks are
still those of `tom`, and a frame handled there calls `morphFace` with the pixels of `salah`
and the landmarks of `tom`, which are not the landmarks of `salah`. -/
theorem selectAsset_frame_between_awaits :
    (selectAssetStart 1 Example.tomSelected).2 = some Example.salah ∧
      (afterLoadImage Example.salah (Example.network.loadImage Example.salah.image)
        (selectAssetStart 1 Example.tomSelected).1) = (Example.salahImageArrived, true) ∧
      Example.salahImageArrived.targetImage = some Example.salahImg ∧
      Example.salahImageArrived.targetCanvas = Example.salahImg.bitmap ∧
      Example.salahImageArrived.targetLandmarks = some Example.tomLandmarks ∧
      Example.network.fetch Example.salah.landmarks =
        .ok { ok := true, json := .ok (some Example.salahLandmarks) } ∧
      Example.tomLandmarks ≠ Example.salahLandmarks ∧
      (onFaceMeshResults Example.env Example.video Example.faceResults
        Example.salahImageArrived).2 =
        [Call.applyMorph,
          Call.morphFace (drawVideoFrame Example.video) Example.salahImg.bitmap
            (some [(3 / 2, 1), (1 / 2, 1), (1, 2)]) (some Example.tomLandmarks) (1 / 2),
          Call.putImageData Example.salahImg.bitmap] := by
  refine ⟨rfl, rfl, rfl, rfl, rfl, rfl, ?_, ?_⟩
  · unfold Example.tomLandmarks Example.salahLandmarks
    norm_num
  · rw [onFaceMeshResults_face Example.env Example.video Example.faceResults _ _ _ rfl]
    have hno : Example.salahImageArrived.selectedAddon = none := rfl
    have hm : Example.salahImageArrived.morphAmount = 1 / 2 := rfl
    have himg : Example.salahImageArrived.targetImage = some Example.salahImg := rfl
    have hlm : Example.salahImageArrived.targetLandmarks = some Example.tomLandmarks := rfl
    simp only [hno, hm, himg, hlm, Option.isSome_none, Bool.false_eq_true, if_false]
    rw [if_pos ⟨by norm_num, rfl, rfl⟩]
    norm_num [applyMorph, Example.env, toPixelLandmarks, Example.video, drawVideoFrame,
      hlm, Example.salahImageArrived, afterLoadImage, Example.salahImg]

/-- Two overlapping calls, `selectAsset(0)` for `tom` and `selectAsset(1)` for `salah`, whose
images arrive in the order of the calls and whose landmark files arrive in the opposite
order: when both calls have ended the image is that of `salah` and the landmarks are those of
`tom`. -/
theorem selectAsset_overlapping_calls :
    (afterJson Example.tom (.ok (some Example.tomLandmarks))
      (afterJson Example.salah (.ok (some Example.salahLandmarks))
        (afterLoadImage Example.salah (.ok Example.salahImg)
          (afterLoadImage Example.tom (.ok Example.targetImg)
            (selectAssetStart 1 (selectAssetStart 0 Example.gallery).1).1).1).1)).targetImage =
        some Example.salahImg ∧
    (afterJson Example.tom (.ok (some Example.tomLandmarks))
      (afterJson Example.salah (.ok (some Example.salahLandmarks))
        (afterLoadImage Example.salah (.ok Example.salahImg)
          (afterLoadImage Example.tom (.ok Example.targetImg)
            (selectAssetStart 1 (selectAssetStart 0 Example.gallery).1).1).1).1)).targetLandmarks =
        some Example.tomLandmarks :=
  ⟨rfl, rfl⟩

/-! ## Placement under translation and under exchange of the side anchors -/

theorem translate_get {K : Type} [LinearOrderedField K] (dx dy : K) (lm : Landmarks K)
    (i : ℕ) : (translate dx dy lm)[i]? = (lm[i]?).map fun p => (p.1 + dx, p.2 + dy) := by
  unfold translate
  rw [List.getElem?_map]

theorem swapLandmarks_get {K : Type} (i j : ℕ) (lm : Landmarks K) (a b : Point K)
    (hij : i ≠ j) (hi : lm[i]? = some a) (hj : lm[j]? = some b) :
    (swapLandmarks i j lm)[i]? = some b ∧ (swapLandmarks i j lm)[j]? = some a ∧
      ∀ k, k ≠ i → k ≠ j → (swapLandmarks i j lm)[k]? = lm[k]? := by
  have hil : i < lm.length := by
    by_contra h
    rw [List.getElem?_eq_none (not_lt.mp h)] at hi
    cases hi
  have hjl : j < lm.length := by
    by_contra h
    rw [List.getElem?_eq_none (not_lt.mp h)] at hj
    cases hj
  unfold swapLandmarks
  simp only [hi, hj]
  refine ⟨?_, ?_, ?_⟩
  · rw [List.getElem?_set_ne (Ne.symm hij), List.getElem?_set]
    simp [hil]
  · rw [List.getElem?_set]
    simp [hjl]
  · intro k hki hkj
    rw [List.getElem?_set_ne (Ne.symm hkj), List.getElem?_set_ne (Ne.symm hki)]

theorem placeEyewear_translate {K : Type} [LinearOrderedField K] (sqrt : K → K)
    (img : Image K) (lm : Landmarks K) (dx dy : K) :
    placeEyewear sqrt img (translate dx dy lm) =
      (placeEyewear sqrt img lm).map (Rect.moveBy dx dy) := by
  unfold placeEyewear
  rw [translate_get, translate_get]
  cases lm[33]? <;> cases lm[263]? <;>
    simp only [Option.map_none', Option.map_some', Rect.moveBy, add_sub_add_right_eq_sub]
  congr 1
  simp only [Rect.mk.injEq, and_true]
  constructor <;> ring

theorem placeMouth_translate {K : Type} [LinearOrderedField K] (sqrt : K → K)
    (isBeard : Bool) (img : Image K) (lm : Landmarks K) (dx dy : K) :
    placeMouth sqrt isBeard img (translate dx dy lm) =
      (placeMouth sqrt isBeard img lm).map (Rect.moveBy dx dy) := by
  unfold placeMouth
  rw [translate_get, translate_get]
  cases lm[61]? <;> cases lm[291]? <;>
    simp only [Option.map_none', Option.map_some', Rect.moveBy, add_sub_add_right_eq_sub]
  congr 1
  simp only [Rect.mk.injEq, and_true]
  constructor <;> ring

theorem placeCrown_translate {K : Type} [LinearOrderedField K] (sqrt : K → K)
    (img : Image K) (lm : Landmarks K) (dx dy : K) :
    placeCrown sqrt img (translate dx dy lm) =
      (placeCrown sqrt img lm).map (Rect.moveBy dx dy) := by
  unfold placeCrown
  rw [translate_get, translate_get, translate_get]
  cases lm[10]? <;> cases lm[234]? <;> cases lm[454]? <;>
    simp only [Option.map_none', Option.map_some', Rect.moveBy, add_sub_add_right_eq_sub]
  congr 1
  simp only [Rect.mk.injEq, and_true]
  constructor <;> ring

theorem placeDefault_translate {K : Type} [LinearOrderedField K] (img : Image K)
    (lm : Landmarks K) (dx dy : K) :
    placeDefault img (translate dx dy lm) =
      (placeDefault img lm).map (Rect.moveBy dx dy) := by
  unfold placeDefault
  rw [translate_get, translate_get, translate_get]
  cases lm[1]? <;> cases lm[234]? <;> cases lm[454]? <;>
    simp only [Option.map_none', Option.map_some', Rect.moveBy, add_sub_add_right_eq_sub]
  congr 1
  simp only [Rect.mk.injEq, and_true]
  constructor <;> ring

theorem addonPlacement_translate {K : Type} [LinearOrderedField K] (sqrt : K → K)
    (type : Option String) (img : Image K) (lm : Landmarks K) (dx dy : K) :
    addonPlacement sqrt type img (translate dx dy lm) =
      (addonPlacement sqrt type img lm).map (Rect.moveBy dx dy) := by
  unfold addonPlacement
  split_ifs
  · exact placeEyewear_translate sqrt img lm dx dy
  · exact placeMouth_translate sqrt _ img lm dx dy
  · exact placeCrown_translate sqrt img lm dx dy
  · exact placeDefault_translate img lm dx dy

theorem placeEyewear_swap {K : Type} [LinearOrderedField K] (sqrt : K → K) (img : Image K)
    (lm : Landmarks K) (a b : Point K) (ha : lm[33]? = some a) (hb : lm[263]? = some b) :
    placeEyewear sqrt img (swapLandmarks 33 263 lm) = placeEyewear sqrt img lm := by
  obtain ⟨h1, h2, -⟩ := swapLandmarks_get 33 263 lm a b (by decide) ha hb
  unfold placeEyewear
  simp only [h1, h2, ha, hb]
  have e : (a.1 - b.1) ^ 2 + (a.2 - b.2) ^ 2 = (b.1 - a.1) ^ 2 + (b.2 - a.2) ^ 2 := by ring
  rw [e, add_comm b.1 a.1, add_comm b.2 a.2]

theorem placeMouth_swap {K : Type} [LinearOrderedField K] (sqrt : K → K) (isBeard : Bool)
    (img : Image K) (lm : Landmarks K) (a b : Point K) (ha : lm[61]? = some a)
    (hb : lm[291]? = some b) :
    placeMouth sqrt isBeard img (swapLandmarks 61 291 lm) = placeMouth sqrt isBeard img lm := by
  obtain ⟨h1, h2, -⟩ := swapLandmarks_get 61 291 lm a b (by decide) ha hb
  unfold placeMouth
  simp only [h1, h2, ha, hb]
  have e : (a.1 - b.1) ^ 2 + (a.2 - b.2) ^ 2 = (b.1 - a.1) ^ 2 + (b.2 - a.2) ^ 2 := by ring
  rw [e, add_comm b.1 a.1, add_comm b.2 a.2]

theorem placeCrown_swap {K : Type} [LinearOrderedField K] (sqrt : K → K) (img : Image K)
    (lm : Landmarks K) (a b : Point K) (ha : lm[234]? = some a) (hb : lm[454]? = some b) :
    placeCrown sqrt img (swapLandmarks 234 454 lm) = placeCrown sqrt img lm := by
  obtain ⟨h1, h2, h3⟩ := swapLandmarks_get 234 454 lm a b (by decide) ha hb
  unfold placeCrown
  simp only [h1, h2, ha, hb, h3 10 (by decide) (by decide)]
  have e : (a.1 - b.1) ^ 2 + (a.2 - b.2) ^ 2 = (b.1 - a.1) ^ 2 + (b.2 - a.2) ^ 2 := by ring
  cases lm[10]? with
  | none => rfl
  | some top =>
    simp only
    rw [e, add_comm b.1 a.1]

theorem placeDefault_swap {K : Type} [LinearOrderedField K] (img : Image K)
    (lm : Landmarks K) (a b : Point K) (ha : lm[234]? = some a) (hb : lm[454]? = some b) :
    placeDefault img (swapLandmarks 234 454 lm) = placeDefault img lm := by
  obtain ⟨h1, h2, h3⟩ := swapLandmarks_get 234 454 lm a b (by decide) ha hb
  unfold placeDefault
  simp only [h1, h2, ha, hb, h3 1 (by decide) (by decide)]
  cases lm[1]? with
  | none => rfl
  | some nosePoint =>
    simp only
    rw [abs_sub_comm a.1 b.1]

/-- C16. For every addon type, sprite and landmark set with the required anchors present,
moving every landmark by `(dx, dy)` leaves the computed width and height unchanged and moves
the computed position by exactly `(dx, dy)`, and exchanging the left and the right anchor
landmark yields the same rectangle. -/
theorem addonPlacement_follows_face {K : Type} [LinearOrderedField K] (sqrt : K → K)
    (type : Option String) (img : Image K) (lm : Landmarks K) (dx dy : K)
    (hanchors : ∀ i ∈ requiredAnchors type, (lm[i]?).isSome = true) :
    ∃ rect moved : Rect K,
      addonPlacement sqrt type img lm = some rect ∧
      addonPlacement sqrt type img (translate dx dy lm) = some moved ∧
      moved.width = rect.width ∧ moved.height = rect.height ∧
      moved.x = rect.x + dx ∧ moved.y = rect.y + dy ∧
      addonPlacement sqrt type img
        (swapLandmarks (sideAnchors type).1 (sideAnchors type).2 lm) = some rect := by
  obtain ⟨rect, hrect⟩ :=
    Option.isSome_iff_exists.mp ((addonPlacement_isSome sqrt type img lm).mpr hanchors)
  refine ⟨rect, rect.moveBy dx dy, hrect, ?_, rfl, rfl, rfl, rfl, ?_⟩
  · rw [addonPlacement_translate, hrect]
    rfl
  · rw [← hrect]
    unfold addonPlacement sideAnchors
    unfold requiredAnchors at hanchors
    split_ifs at hanchors ⊢ with h1 h2 h3
    · obtain ⟨a, ha⟩ := Option.isSome_iff_exists.mp (hanchors 33 (by simp))
      obtain ⟨b, hb⟩ := Option.isSome_iff_exists.mp (hanchors 263 (by simp))
      exact placeEyewear_swap sqrt img lm a b ha hb
    · obtain ⟨a, ha⟩ := Option.isSome_iff_exists.mp (hanchors 61 (by simp))
      obtain ⟨b, hb⟩ := Option.isSome_iff_exists.mp (hanchors 291 (by simp))
      exact placeMouth_swap sqrt _ img lm a b ha hb
    · obtain ⟨a, ha⟩ := Option.isSome_iff_exists.mp (hanchors 234 (by simp))
      obtain ⟨b, hb⟩ := Option.isSome_iff_exists.mp (hanchors 454 (by simp))
      exact placeCrown_swap sqrt img lm a b ha hb
    · obtain ⟨a, ha⟩ := Option.isSome_iff_exists.mp (hanchors 234 (by simp))
      obtain ⟨b, hb⟩ := Option.isSome_iff_exists.mp (hanchors 454 (by simp))
      exact placeDefault_swap img lm a b ha hb

theorem Example.tiltedFace_anchors (type : Option String) :
    ∀ i ∈ requiredAnchors type, (Example.tiltedFace[i]?).isSome = true := by
  intro i hi
  have hlt : i < 478 := by
    unfold requiredAnchors at hi
    split_ifs at hi <;> simp at hi <;> omega
  rw [Example.tiltedFace_get i hlt]
  rfl

/-- Witness for C16: a wig on the tilted face, moved by `(10, -5)`. -/
theorem addonPlacement_follows_face_witness :
    (∀ i ∈ requiredAnchors (some "wig"), (Example.tiltedFace[i]?).isSome = true) ∧
      ∃ rect moved : Rect ℚ,
        addonPlacement Example.sqrtQ (some "wig") Example.sprite Example.tiltedFace =
          some rect ∧
        addonPlacement Example.sqrtQ (some "wig") Example.sprite
          (translate 10 (-5) Example.tiltedFace) = some moved ∧
        moved.width = rect.width ∧ moved.height = rect.height ∧
        moved.x = rect.x + 10 ∧ moved.y = rect.y + -5 ∧
        addonPlacement Example.sqrtQ (some "wig") Example.sprite
          (swapLandmarks (sideAnchors (some "wig")).1 (sideAnchors (some "wig")).2
            Example.tiltedFace) = some rect :=
  ⟨Example.tiltedFace_anchors _,
    addonPlacement_follows_face Example.sqrtQ (some "wig") Example.sprite Example.tiltedFace
      10 (-5) (Example.tiltedFace_anchors _)⟩

end FaceMorph
